import Mathlib

/-!
# Instruction-level MIPS simulator: decode layer, dispatch and handlers

A shallow embedding of `src/mips/sim/decode.c` and `src/mips/sim/sim.c`.

Conventions of the embedding.

* A C `uint32_t` is a `Nat`; every C operation that can leave the 32-bit range is
  followed by an explicit reduction (`u32`, or `% 4294967296`).
* A C signed integer (`int`, `int16_t`, `int32_t`, `int64_t`) is an `Int`; the casts
  into the signed types are `i8`, `i16`, `i32`.
* The globals `CURRENT_STATE`, `NEXT_STATE`, `RUN_BIT` and the memory image are the
  fields of `Machine`; a C function that reads and writes them is a function on `Machine`.
* A handler returns `Option (Machine × Status)`: `none` stands for a C operation that has
  no result (integer division by zero, calling a null or out-of-range table slot).
* `printf` / `fprintf` output is not part of the model.

The headers `mips.h`, `shell.h`, `sim.h`, `decode.h` and the host file `shell.c` are not
part of the sources; whatever is taken from them is marked `Modelled from the spec:`.
-/

namespace MIPS

/-! ## Machine integers -/

/-- Conversion of a C integer value to `uint32_t`: reduction modulo 2^32. -/
def u32 (x : Int) : Nat := (x % 4294967296).toNat

/-- The cast `(int8_t) x` of an unsigned value. -/
def i8 (x : Nat) : Int :=
  if x % 256 < 128 then ((x % 256 : Nat) : Int) else ((x % 256 : Nat) : Int) - 256

/-- The cast `(int16_t) x` of an unsigned value. -/
def i16 (x : Nat) : Int :=
  if x % 65536 < 32768 then ((x % 65536 : Nat) : Int) else ((x % 65536 : Nat) : Int) - 65536

/-- The cast `(int32_t) x` of an unsigned value. -/
def i32 (x : Nat) : Int :=
  if x % 4294967296 < 2147483648 then ((x % 4294967296 : Nat) : Int)
  else ((x % 4294967296 : Nat) : Int) - 4294967296

/-- The C expression `x << n` on an `int` whose left operand may be negative, as every
two's-complement compiler evaluates it for `n < 32`: the product `x * 2^n` wrapped to 32 bits.
For `n ≥ 32` C leaves the value undefined; the model keeps the same formula there. -/
def shl_int (x : Int) (n : Nat) : Int := i32 (u32 (x * 2 ^ n))

/-- The value an `int64_t` computation keeps when the exact result leaves the 64-bit range:
the result wrapped to 64 bits (signed overflow as the usual compilers evaluate it). -/
def wrap_i64 (x : Int) : Int :=
  (x + 9223372036854775808) % 18446744073709551616 - 9223372036854775808

/-! ## Constants of `mips.h` -/

/-- Modelled from the spec: `MASK_OPCODE` of the absent `mips.h`; the opcode is bits 31..26. -/
def MASK_OPCODE : Nat := 0xFC000000
/-- Modelled from the spec: `SHIFT_OPCODE` of the absent `mips.h`. -/
def SHIFT_OPCODE : Nat := 26
/-- Modelled from the spec: `MASK_I_RS` of the absent `mips.h`; rs is bits 25..21. -/
def MASK_I_RS : Nat := 0x03E00000
/-- Modelled from the spec: `SHIFT_I_RS` of the absent `mips.h`. -/
def SHIFT_I_RS : Nat := 21
/-- Modelled from the spec: `MASK_I_RT` of the absent `mips.h`; rt is bits 20..16. -/
def MASK_I_RT : Nat := 0x001F0000
/-- Modelled from the spec: `SHIFT_I_RT` of the absent `mips.h`. -/
def SHIFT_I_RT : Nat := 16
/-- Modelled from the spec: `MASK_I_IMMEDIATE` of the absent `mips.h`; bits 15..0. -/
def MASK_I_IMMEDIATE : Nat := 0x0000FFFF
/-- Modelled from the spec: `SHIFT_I_IMMEDIATE` of the absent `mips.h`. -/
def SHIFT_I_IMMEDIATE : Nat := 0
/-- Modelled from the spec: `MASK_J_TARGET` of the absent `mips.h`; bits 25..0. -/
def MASK_J_TARGET : Nat := 0x03FFFFFF
/-- Modelled from the spec: `SHIFT_J_TARGET` of the absent `mips.h`. -/
def SHIFT_J_TARGET : Nat := 0
/-- Modelled from the spec: `MASK_R_RS` of the absent `mips.h`; rs is bits 25..21. -/
def MASK_R_RS : Nat := 0x03E00000
/-- Modelled from the spec: `SHIFT_R_RS` of the absent `mips.h`. -/
def SHIFT_R_RS : Nat := 21
/-- Modelled from the spec: `MASK_R_RT` of the absent `mips.h`; rt is bits 20..16. -/
def MASK_R_RT : Nat := 0x001F0000
/-- Modelled from the spec: `SHIFT_R_RT` of the absent `mips.h`. -/
def SHIFT_R_RT : Nat := 16
/-- Modelled from the spec: `MASK_R_RD` of the absent `mips.h`; rd is bits 15..11. -/
def MASK_R_RD : Nat := 0x0000F800
/-- Modelled from the spec: `SHIFT_R_RD` of the absent `mips.h`. -/
def SHIFT_R_RD : Nat := 11
/-- Modelled from the spec: `MASK_R_SHAMT` of the absent `mips.h`; shamt is bits 10..6. -/
def MASK_R_SHAMT : Nat := 0x000007C0
/-- Modelled from the spec: `SHIFT_R_SHAMT` of the absent `mips.h`. -/
def SHIFT_R_SHAMT : Nat := 6
/-- Modelled from the spec: `MASK_R_FUNCT` of the absent `mips.h`; funct is bits 5..0. -/
def MASK_R_FUNCT : Nat := 0x0000003F
/-- Modelled from the spec: `SHIFT_R_FUNCT` of the absent `mips.h`. -/
def SHIFT_R_FUNCT : Nat := 0
/-- Modelled from the spec: `MASK_PC_HIGH` of the absent `mips.h`; the high nibble of the PC. -/
def MASK_PC_HIGH : Nat := 0xF0000000
/-- Modelled from the spec: `REG_LINK` of the absent `mips.h`; the link register is r31. -/
def REG_LINK : Nat := 31
/-- Modelled from the spec: `REG_SYSCALL` of the absent `mips.h`; the syscall number is in r2. -/
def REG_SYSCALL : Nat := 2
/-- Modelled from the spec: `DISPATCH_SIZE` of the absent `mips.h`; each table has 64 entries. -/
def DISPATCH_SIZE : Nat := 64

/-! ## `decode.c`

The decoders that return `int` cast a masked and shifted `uint32_t`; the value is far below
2^31, so the cast keeps it and the result is modelled as a `Nat`. `decode_j_funct` is used by
no handler and its mask is documented nowhere; it is left out. -/

/-- Source: `decode_opcode`. -/
def decode_opcode (instr : Nat) : Nat := (instr &&& MASK_OPCODE) >>> SHIFT_OPCODE

/-- Source: `decode_i_rs`. -/
def decode_i_rs (instr : Nat) : Nat := (instr &&& MASK_I_RS) >>> SHIFT_I_RS

/-- Source: `decode_i_rt`. -/
def decode_i_rt (instr : Nat) : Nat := (instr &&& MASK_I_RT) >>> SHIFT_I_RT

/-- Source: `decode_i_immediate`; the result type is `int16_t`. -/
def decode_i_immediate (instr : Nat) : Int :=
  i16 ((instr &&& MASK_I_IMMEDIATE) >>> SHIFT_I_IMMEDIATE)

/-- Source: `decode_j_target`. -/
def decode_j_target (instr : Nat) : Nat := (instr &&& MASK_J_TARGET) >>> SHIFT_J_TARGET

/-- Source: `decode_r_rs`. -/
def decode_r_rs (instr : Nat) : Nat := (instr &&& MASK_R_RS) >>> SHIFT_R_RS

/-- Source: `decode_r_rt`. -/
def decode_r_rt (instr : Nat) : Nat := (instr &&& MASK_R_RT) >>> SHIFT_R_RT

/-- Source: `decode_r_rd`. -/
def decode_r_rd (instr : Nat) : Nat := (instr &&& MASK_R_RD) >>> SHIFT_R_RD

/-- Source: `decode_r_shamt`. -/
def decode_r_shamt (instr : Nat) : Nat := (instr &&& MASK_R_SHAMT) >>> SHIFT_R_SHAMT

/-- Source: `decode_r_funct`. -/
def decode_r_funct (instr : Nat) : Nat := (instr &&& MASK_R_FUNCT) >>> SHIFT_R_FUNCT

/-! ## Architectural state, run flag and memory -/

/-- Modelled from the spec: `CPU_State` of the absent `shell.h`: the program counter, the 32
unsigned 32-bit general registers and the HI / LO pair, all `uint32_t`. -/
structure CPU_State where
  PC : Nat
  REGS : Nat → Nat
  HI : Nat
  LO : Nat

/-- The globals the handlers work on: `CURRENT_STATE`, `NEXT_STATE`, `RUN_BIT` (a C `int`,
zero when halted) and the memory image behind `mem_read_32` / `mem_write_32`. -/
structure Machine where
  CURRENT_STATE : CPU_State
  NEXT_STATE : CPU_State
  RUN_BIT : Nat
  MEM : Nat → Nat

/-- Modelled from the spec: the two outcomes `STATUS_OK` and `STATUS_ERR` of a handler, macros
of the absent `mips.h`. -/
inductive Status where
  | STATUS_OK
  | STATUS_ERR
  deriving DecidableEq, Repr

/-- Modelled from the spec: `mem_read_32` of the absent `shell.c`, the host capability that
reads the 32-bit word stored at an address. -/
def mem_read_32 (m : Machine) (address : Nat) : Nat := m.MEM address

/-- Modelled from the spec: `mem_write_32` of the absent `shell.c`, the host capability that
stores a 32-bit word at an address; a later read of that address returns it. -/
def mem_write_32 (m : Machine) (address value : Nat) : Machine :=
  { m with MEM := Function.update m.MEM address value }

/-- The assignment `NEXT_STATE.PC = v`. -/
def set_next_pc (m : Machine) (v : Nat) : Machine :=
  { m with NEXT_STATE := { m.NEXT_STATE with PC := v } }

/-- The assignment `NEXT_STATE.REGS[r] = v`. -/
def set_next_reg (m : Machine) (r v : Nat) : Machine :=
  { m with NEXT_STATE := { m.NEXT_STATE with REGS := Function.update m.NEXT_STATE.REGS r v } }

/-- The assignment `NEXT_STATE.HI = v`. -/
def set_next_hi (m : Machine) (v : Nat) : Machine :=
  { m with NEXT_STATE := { m.NEXT_STATE with HI := v } }

/-- The assignment `NEXT_STATE.LO = v`. -/
def set_next_lo (m : Machine) (v : Nat) : Machine :=
  { m with NEXT_STATE := { m.NEXT_STATE with LO := v } }

/-- The value of `CURRENT_STATE.PC + 4` in `uint32_t` arithmetic. -/
def pc_plus_4 (m : Machine) : Nat := (m.CURRENT_STATE.PC + 4) % 4294967296

/-- The value of `CURRENT_STATE.PC + offset` for an `int32_t` offset: the offset is converted
to `uint32_t` and the sum wraps. -/
def pc_plus_offset (m : Machine) (offset : Int) : Nat :=
  u32 ((m.CURRENT_STATE.PC : Int) + offset)

/-- The branch offset `(int32_t) (decode_i_immediate(instr) << 2)`. -/
def branch_offset (instr : Nat) : Int := shl_int (decode_i_immediate instr) 2

/-- The effective address `CURRENT_STATE.REGS[base] + offset` of the loads and stores. -/
def effective_address (m : Machine) (instr : Nat) : Nat :=
  u32 ((m.CURRENT_STATE.REGS (decode_i_rs instr) : Int) + decode_i_immediate instr)

/-! ## `sim.c`: instruction handlers, by opcode -/

/-- Source: `handle_j`. -/
def handle_j (instr : Nat) (m : Machine) : Option (Machine × Status) :=
  let target := (decode_j_target instr <<< 2) % 4294967296
  let current_addr := m.CURRENT_STATE.PC &&& MASK_PC_HIGH
  some (set_next_pc m ((current_addr + target) % 4294967296), Status.STATUS_OK)

/-- Source: `handle_jal`. -/
def handle_jal (instr : Nat) (m : Machine) : Option (Machine × Status) :=
  let target := (decode_j_target instr <<< 2) % 4294967296
  let current_addr := m.CURRENT_STATE.PC &&& MASK_PC_HIGH
  let m1 := set_next_pc m ((current_addr + target) % 4294967296)
  some (set_next_reg m1 REG_LINK (pc_plus_4 m), Status.STATUS_OK)

/-- Source: `handle_beq`. -/
def handle_beq (instr : Nat) (m : Machine) : Option (Machine × Status) :=
  let rs := decode_i_rs instr
  let rt := decode_i_rt instr
  let offset := branch_offset instr
  if m.CURRENT_STATE.REGS rs = m.CURRENT_STATE.REGS rt then
    some (set_next_pc m (pc_plus_offset m offset), Status.STATUS_OK)
  else
    some (set_next_pc m (pc_plus_4 m), Status.STATUS_OK)

/-- Source: `handle_bne`. -/
def handle_bne (instr : Nat) (m : Machine) : Option (Machine × Status) :=
  let rs := decode_i_rs instr
  let rt := decode_i_rt instr
  let offset := branch_offset instr
  if m.CURRENT_STATE.REGS rs ≠ m.CURRENT_STATE.REGS rt then
    some (set_next_pc m (pc_plus_offset m offset), Status.STATUS_OK)
  else
    some (set_next_pc m (pc_plus_4 m), Status.STATUS_OK)

/-- Source: `handle_blez`. The register is a `uint32_t`, so `<= 0` is an unsigned comparison. -/
def handle_blez (instr : Nat) (m : Machine) : Option (Machine × Status) :=
  let rs := decode_i_rs instr
  let offset := branch_offset instr
  if m.CURRENT_STATE.REGS rs ≤ 0 then
    some (set_next_pc m (pc_plus_offset m offset), Status.STATUS_OK)
  else
    some (set_next_pc m (pc_plus_4 m), Status.STATUS_OK)

/-- Source: `handle_bgtz`. The register is a `uint32_t`, so `> 0` is an unsigned comparison. -/
def handle_bgtz (instr : Nat) (m : Machine) : Option (Machine × Status) :=
  let rs := decode_i_rs instr
  let offset := branch_offset instr
  if m.CURRENT_STATE.REGS rs > 0 then
    some (set_next_pc m (pc_plus_offset m offset), Status.STATUS_OK)
  else
    some (set_next_pc m (pc_plus_4 m), Status.STATUS_OK)

/-- Source: `handle_addi`. -/
def handle_addi (instr : Nat) (m : Machine) : Option (Machine × Status) :=
  let rs := decode_i_rs instr
  let rt := decode_i_rt instr
  let immediate : Int := decode_i_immediate instr
  let m1 := set_next_reg m rt (u32 ((m.CURRENT_STATE.REGS rs : Int) + immediate))
  some (set_next_pc m1 (pc_plus_4 m), Status.STATUS_OK)

/-- Source: `handle_addiu`. -/
def handle_addiu (instr : Nat) (m : Machine) : Option (Machine × Status) :=
  let rs := decode_i_rs instr
  let rt := decode_i_rt instr
  let immediate : Int := decode_i_immediate instr
  let m1 := set_next_reg m rt (u32 ((m.CURRENT_STATE.REGS rs : Int) + immediate))
  some (set_next_pc m1 (pc_plus_4 m), Status.STATUS_OK)

/-- Source: `handle_slti`. -/
def handle_slti (instr : Nat) (m : Machine) : Option (Machine × Status) :=
  let rs := decode_i_rs instr
  let rt := decode_i_rt instr
  let immediate : Int := decode_i_immediate instr
  let m1 :=
    if i32 (m.CURRENT_STATE.REGS rs) < immediate then set_next_reg m rt 1
    else set_next_reg m rt 0
  some (set_next_pc m1 (pc_plus_4 m), Status.STATUS_OK)

/-- Source: `handle_sltiu`. -/
def handle_sltiu (instr : Nat) (m : Machine) : Option (Machine × Status) :=
  let rs := decode_i_rs instr
  let rt := decode_i_rt instr
  let immediate : Int := decode_i_immediate instr
  let m1 :=
    if m.CURRENT_STATE.REGS rs < u32 immediate then set_next_reg m rt 1
    else set_next_reg m rt 0
  some (set_next_pc m1 (pc_plus_4 m), Status.STATUS_OK)

/-- Source: `handle_andi`. The immediate is `(uint32_t) decode_i_immediate(instr)`, the
conversion of an `int16_t`. -/
def handle_andi (instr : Nat) (m : Machine) : Option (Machine × Status) :=
  let rs := decode_i_rs instr
  let rt := decode_i_rt instr
  let immediate : Nat := u32 (decode_i_immediate instr)
  let m1 := set_next_reg m rt (m.CURRENT_STATE.REGS rs &&& immediate)
  some (set_next_pc m1 (pc_plus_4 m), Status.STATUS_OK)

/-- Source: `handle_ori`. -/
def handle_ori (instr : Nat) (m : Machine) : Option (Machine × Status) :=
  let rs := decode_i_rs instr
  let rt := decode_i_rt instr
  let immediate : Nat := u32 (decode_i_immediate instr)
  let m1 := set_next_reg m rt (m.CURRENT_STATE.REGS rs ||| immediate)
  some (set_next_pc m1 (pc_plus_4 m), Status.STATUS_OK)

/-- Source: `handle_xori`. -/
def handle_xori (instr : Nat) (m : Machine) : Option (Machine × Status) :=
  let rs := decode_i_rs instr
  let rt := decode_i_rt instr
  let immediate : Nat := u32 (decode_i_immediate instr)
  let m1 := set_next_reg m rt (m.CURRENT_STATE.REGS rs ^^^ immediate)
  some (set_next_pc m1 (pc_plus_4 m), Status.STATUS_OK)

/-- Source: `handle_lui`. The shifted `int` meets the unsigned literal `0xFFFF0000`, so the
`&` is taken in `unsigned`; the result passes through `int32_t` into the register. -/
def handle_lui (instr : Nat) (m : Machine) : Option (Machine × Status) :=
  let rt := decode_i_rt instr
  let immediate : Int := i32 (u32 (shl_int (decode_i_immediate instr) 16) &&& 0xFFFF0000)
  let m1 := set_next_reg m rt (u32 immediate)
  some (set_next_pc m1 (pc_plus_4 m), Status.STATUS_OK)

/-- Source: `handle_lb`. -/
def handle_lb (instr : Nat) (m : Machine) : Option (Machine × Status) :=
  let rt := decode_i_rt instr
  let address := effective_address m instr
  let byte : Int := i8 (mem_read_32 m address &&& 0x000000FF)
  let m1 := set_next_reg m rt (u32 byte)
  some (set_next_pc m1 (pc_plus_4 m), Status.STATUS_OK)

/-- Source: `handle_lh`. -/
def handle_lh (instr : Nat) (m : Machine) : Option (Machine × Status) :=
  let rt := decode_i_rt instr
  let address := effective_address m instr
  let halfword : Int := i16 (mem_read_32 m address &&& 0x0000FFFF)
  let m1 := set_next_reg m rt (u32 halfword)
  some (set_next_pc m1 (pc_plus_4 m), Status.STATUS_OK)

/-- Source: `handle_lw`. -/
def handle_lw (instr : Nat) (m : Machine) : Option (Machine × Status) :=
  let rt := decode_i_rt instr
  let address := effective_address m instr
  let m1 := set_next_reg m rt (mem_read_32 m address)
  some (set_next_pc m1 (pc_plus_4 m), Status.STATUS_OK)

/-- Source: `handle_lbu`. -/
def handle_lbu (instr : Nat) (m : Machine) : Option (Machine × Status) :=
  let rt := decode_i_rt instr
  let address := effective_address m instr
  let byte : Nat := (mem_read_32 m address &&& 0x000000FF) % 256
  let m1 := set_next_reg m rt byte
  some (set_next_pc m1 (pc_plus_4 m), Status.STATUS_OK)

/-- Source: `handle_lhu`. -/
def handle_lhu (instr : Nat) (m : Machine) : Option (Machine × Status) :=
  let rt := decode_i_rt instr
  let address := effective_address m instr
  let halfword : Nat := (mem_read_32 m address &&& 0x0000FFFF) % 65536
  let m1 := set_next_reg m rt halfword
  some (set_next_pc m1 (pc_plus_4 m), Status.STATUS_OK)

/-- Source: `handle_sb`. The preserved bits and the new byte are combined with `&`. -/
def handle_sb (instr : Nat) (m : Machine) : Option (Machine × Status) :=
  let rt := decode_i_rt instr
  let address := effective_address m instr
  let byte := m.CURRENT_STATE.REGS rt &&& 0x000000FF
  let mem := mem_read_32 m address &&& 0xFFFFFF00
  let m1 := mem_write_32 m address (mem &&& byte)
  some (set_next_pc m1 (pc_plus_4 m), Status.STATUS_OK)

/-- Source: `handle_sh`. The preserved bits and the new halfword are combined with `&`. -/
def handle_sh (instr : Nat) (m : Machine) : Option (Machine × Status) :=
  let rt := decode_i_rt instr
  let address := effective_address m instr
  let byte := m.CURRENT_STATE.REGS rt &&& 0x0000FFFF
  let mem := mem_read_32 m address &&& 0xFFFF0000
  let m1 := mem_write_32 m address (mem &&& byte)
  some (set_next_pc m1 (pc_plus_4 m), Status.STATUS_OK)

/-- Source: `handle_sw`. -/
def handle_sw (instr : Nat) (m : Machine) : Option (Machine × Status) :=
  let rt := decode_i_rt instr
  let address := effective_address m instr
  let m1 := mem_write_32 m address (m.CURRENT_STATE.REGS rt)
  some (set_next_pc m1 (pc_plus_4 m), Status.STATUS_OK)

/-! ## `sim.c`: instruction handlers, by function (SPECIAL) -/

/-- Source: `handle_sll`. -/
def handle_sll (instr : Nat) (m : Machine) : Option (Machine × Status) :=
  let rt := decode_r_rt instr
  let rd := decode_r_rd instr
  let sa := decode_r_shamt instr
  let m1 := set_next_reg m rd ((m.CURRENT_STATE.REGS rt <<< sa) % 4294967296)
  some (set_next_pc m1 (pc_plus_4 m), Status.STATUS_OK)

/-- Source: `handle_srl`. -/
def handle_srl (instr : Nat) (m : Machine) : Option (Machine × Status) :=
  let rt := decode_r_rt instr
  let rd := decode_r_rd instr
  let sa := decode_r_shamt instr
  let m1 := set_next_reg m rd (m.CURRENT_STATE.REGS rt >>> sa)
  some (set_next_pc m1 (pc_plus_4 m), Status.STATUS_OK)

/-- Source: `handle_sra`. The mask `(~((int32_t) 0)) << (32 - sa)` is or-ed into the logical
shift whatever the sign bit of the operand is. For `sa = 0` the shift count is 32 and C leaves
the mask undefined; the value `shl_int` gives there is a choice of the model. -/
def handle_sra (instr : Nat) (m : Machine) : Option (Machine × Status) :=
  let rt := decode_r_rt instr
  let rd := decode_r_rd instr
  let sa := decode_r_shamt instr
  let mask := u32 (shl_int (-1) (32 - sa))
  let result := m.CURRENT_STATE.REGS rt >>> sa
  let m1 := set_next_reg m rd (result ||| mask)
  some (set_next_pc m1 (pc_plus_4 m), Status.STATUS_OK)

/-- Source: `handle_sllv`. -/
def handle_sllv (instr : Nat) (m : Machine) : Option (Machine × Status) :=
  let rs := decode_r_rs instr
  let rt := decode_r_rt instr
  let rd := decode_r_rd instr
  let sa := m.CURRENT_STATE.REGS rs &&& 0x000001F
  let m1 := set_next_reg m rd ((m.CURRENT_STATE.REGS rt <<< sa) % 4294967296)
  some (set_next_pc m1 (pc_plus_4 m), Status.STATUS_OK)

/-- Source: `handle_srlv`. -/
def handle_srlv (instr : Nat) (m : Machine) : Option (Machine × Status) :=
  let rs := decode_r_rs instr
  let rt := decode_r_rt instr
  let rd := decode_r_rd instr
  let sa := m.CURRENT_STATE.REGS rs &&& 0x000001F
  let m1 := set_next_reg m rd (m.CURRENT_STATE.REGS rt >>> sa)
  some (set_next_pc m1 (pc_plus_4 m), Status.STATUS_OK)

/-- Source: `handle_srav`. The mask is computed as in `handle_sra`. -/
def handle_srav (instr : Nat) (m : Machine) : Option (Machine × Status) :=
  let rs := decode_r_rs instr
  let rt := decode_r_rt instr
  let rd := decode_r_rd instr
  let sa := m.CURRENT_STATE.REGS rs &&& 0x000001F
  let mask := u32 (shl_int (-1) (32 - sa))
  let result := m.CURRENT_STATE.REGS rt >>> sa
  let m1 := set_next_reg m rd (result ||| mask)
  some (set_next_pc m1 (pc_plus_4 m), Status.STATUS_OK)

/-- Source: `handle_jr`. -/
def handle_jr (instr : Nat) (m : Machine) : Option (Machine × Status) :=
  let rs := decode_r_rs instr
  some (set_next_pc m (m.CURRENT_STATE.REGS rs), Status.STATUS_OK)

/-- Source: `handle_jalr`. -/
def handle_jalr (instr : Nat) (m : Machine) : Option (Machine × Status) :=
  let rs := decode_r_rs instr
  let rd := decode_r_rd instr
  let m1 := set_next_reg m rd (pc_plus_4 m)
  some (set_next_pc m1 (m.CURRENT_STATE.REGS rs), Status.STATUS_OK)

/-- Source: `handle_syscall`. -/
def handle_syscall (_instr : Nat) (m : Machine) : Option (Machine × Status) :=
  let m1 := if m.CURRENT_STATE.REGS REG_SYSCALL = 0x0000000A then { m with RUN_BIT := 0 } else m
  some (set_next_pc m1 (pc_plus_4 m), Status.STATUS_OK)

/-- Source: `handle_mfhi`. -/
def handle_mfhi (instr : Nat) (m : Machine) : Option (Machine × Status) :=
  let rd := decode_r_rd instr
  let m1 := set_next_reg m rd m.CURRENT_STATE.HI
  some (set_next_pc m1 (pc_plus_4 m), Status.STATUS_OK)

/-- Source: `handle_mthi`. -/
def handle_mthi (instr : Nat) (m : Machine) : Option (Machine × Status) :=
  let rs := decode_r_rs instr
  let m1 := set_next_hi m (m.CURRENT_STATE.REGS rs)
  some (set_next_pc m1 (pc_plus_4 m), Status.STATUS_OK)

/-- Source: `handle_mflo`. -/
def handle_mflo (instr : Nat) (m : Machine) : Option (Machine × Status) :=
  let rd := decode_r_rd instr
  let m1 := set_next_reg m rd m.CURRENT_STATE.LO
  some (set_next_pc m1 (pc_plus_4 m), Status.STATUS_OK)

/-- Source: `handle_mtlo`. -/
def handle_mtlo (instr : Nat) (m : Machine) : Option (Machine × Status) :=
  let rs := decode_r_rs instr
  let m1 := set_next_lo m (m.CURRENT_STATE.REGS rs)
  some (set_next_pc m1 (pc_plus_4 m), Status.STATUS_OK)

/-- Source: `handle_mult`. Both operands are `(int64_t)` casts of `uint32_t` registers, so
they are the unsigned register values. `result >> 32` on `int64_t` is the floor division by
2^32 and `& 0xFFFFFFFF` the remainder modulo 2^32. -/
def handle_mult (instr : Nat) (m : Machine) : Option (Machine × Status) :=
  let rs := decode_r_rs instr
  let rt := decode_r_rt instr
  let source : Int := (m.CURRENT_STATE.REGS rs : Int)
  let target : Int := (m.CURRENT_STATE.REGS rt : Int)
  let result : Int := wrap_i64 (source * target)
  let m1 := set_next_hi m (u32 ((result / 4294967296) % 4294967296))
  let m2 := set_next_lo m1 (u32 (result % 4294967296))
  some (set_next_pc m2 (pc_plus_4 m), Status.STATUS_OK)

/-- Source: `handle_multu`. -/
def handle_multu (instr : Nat) (m : Machine) : Option (Machine × Status) :=
  let rs := decode_r_rs instr
  let rt := decode_r_rt instr
  let source := m.CURRENT_STATE.REGS rs
  let target := m.CURRENT_STATE.REGS rt
  let result := (source * target) % 18446744073709551616
  let m1 := set_next_hi m (((result >>> 32) &&& 0xFFFFFFFF) % 4294967296)
  let m2 := set_next_lo m1 (((result >>> 0) &&& 0xFFFFFFFF) % 4294967296)
  some (set_next_pc m2 (pc_plus_4 m), Status.STATUS_OK)

/-- Source: `handle_div`. The operands are the unsigned register values held in `int64_t`;
the division has no zero test, and C gives `source / target` no result when `target` is 0. -/
def handle_div (instr : Nat) (m : Machine) : Option (Machine × Status) :=
  let rs := decode_r_rs instr
  let rt := decode_r_rt instr
  let source : Int := (m.CURRENT_STATE.REGS rs : Int)
  let target : Int := (m.CURRENT_STATE.REGS rt : Int)
  if target = 0 then none
  else
    let result : Int := wrap_i64 (Int.tdiv source target)
    let m1 := set_next_hi m (u32 ((result / 4294967296) % 4294967296))
    let m2 := set_next_lo m1 (u32 (result % 4294967296))
    some (set_next_pc m2 (pc_plus_4 m), Status.STATUS_OK)

/-- Source: `handle_divu`. As `handle_div`, in `uint64_t`. -/
def handle_divu (instr : Nat) (m : Machine) : Option (Machine × Status) :=
  let rs := decode_r_rs instr
  let rt := decode_r_rt instr
  let source := m.CURRENT_STATE.REGS rs
  let target := m.CURRENT_STATE.REGS rt
  if target = 0 then none
  else
    let result := (source / target) % 18446744073709551616
    let m1 := set_next_hi m (((result >>> 32) &&& 0xFFFFFFFF) % 4294967296)
    let m2 := set_next_lo m1 (((result >>> 0) &&& 0xFFFFFFFF) % 4294967296)
    some (set_next_pc m2 (pc_plus_4 m), Status.STATUS_OK)

/-- Source: `handle_add`. The `int32_t` sum is stored into a `uint32_t` register: it wraps. -/
def handle_add (instr : Nat) (m : Machine) : Option (Machine × Status) :=
  let rs := decode_r_rs instr
  let rt := decode_r_rt instr
  let rd := decode_r_rd instr
  let source := i32 (m.CURRENT_STATE.REGS rs)
  let target := i32 (m.CURRENT_STATE.REGS rt)
  let m1 := set_next_reg m rd (u32 (source + target))
  some (set_next_pc m1 (pc_plus_4 m), Status.STATUS_OK)

/-- Source: `handle_addu`. -/
def handle_addu (instr : Nat) (m : Machine) : Option (Machine × Status) :=
  let rs := decode_r_rs instr
  let rt := decode_r_rt instr
  let rd := decode_r_rd instr
  let source := i32 (m.CURRENT_STATE.REGS rs)
  let target := i32 (m.CURRENT_STATE.REGS rt)
  let m1 := set_next_reg m rd (u32 (source + target))
  some (set_next_pc m1 (pc_plus_4 m), Status.STATUS_OK)

/-- Source: `handle_sub`. -/
def handle_sub (instr : Nat) (m : Machine) : Option (Machine × Status) :=
  let rs := decode_r_rs instr
  let rt := decode_r_rt instr
  let rd := decode_r_rd instr
  let source := i32 (m.CURRENT_STATE.REGS rs)
  let target := i32 (m.CURRENT_STATE.REGS rt)
  let m1 := set_next_reg m rd (u32 (source - target))
  some (set_next_pc m1 (pc_plus_4 m), Status.STATUS_OK)

/-- Source: `handle_subu`. -/
def handle_subu (instr : Nat) (m : Machine) : Option (Machine × Status) :=
  let rs := decode_r_rs instr
  let rt := decode_r_rt instr
  let rd := decode_r_rd instr
  let source := i32 (m.CURRENT_STATE.REGS rs)
  let target := i32 (m.CURRENT_STATE.REGS rt)
  let m1 := set_next_reg m rd (u32 (source - target))
  some (set_next_pc m1 (pc_plus_4 m), Status.STATUS_OK)

/-- Source: `handle_and`. -/
def handle_and (instr : Nat) (m : Machine) : Option (Machine × Status) :=
  let rs := decode_r_rs instr
  let rt := decode_r_rt instr
  let rd := decode_r_rd instr
  let m1 := set_next_reg m rd (m.CURRENT_STATE.REGS rs &&& m.CURRENT_STATE.REGS rt)
  some (set_next_pc m1 (pc_plus_4 m), Status.STATUS_OK)

/-- Source: `handle_or`. -/
def handle_or (instr : Nat) (m : Machine) : Option (Machine × Status) :=
  let rs := decode_r_rs instr
  let rt := decode_r_rt instr
  let rd := decode_r_rd instr
  let m1 := set_next_reg m rd (m.CURRENT_STATE.REGS rs ||| m.CURRENT_STATE.REGS rt)
  some (set_next_pc m1 (pc_plus_4 m), Status.STATUS_OK)

/-- Source: `handle_xor`. -/
def handle_xor (instr : Nat) (m : Machine) : Option (Machine × Status) :=
  let rs := decode_r_rs instr
  let rt := decode_r_rt instr
  let rd := decode_r_rd instr
  let m1 := set_next_reg m rd (m.CURRENT_STATE.REGS rs ^^^ m.CURRENT_STATE.REGS rt)
  some (set_next_pc m1 (pc_plus_4 m), Status.STATUS_OK)

/-- Source: `handle_nor`. The complement `~x` of a `uint32_t` is `x ^ 0xFFFFFFFF`. -/
def handle_nor (instr : Nat) (m : Machine) : Option (Machine × Status) :=
  let rs := decode_r_rs instr
  let rt := decode_r_rt instr
  let rd := decode_r_rd instr
  let m1 := set_next_reg m rd
    ((m.CURRENT_STATE.REGS rs ||| m.CURRENT_STATE.REGS rt) ^^^ 0xFFFFFFFF)
  some (set_next_pc m1 (pc_plus_4 m), Status.STATUS_OK)

/-- Source: `handle_slt`. -/
def handle_slt (instr : Nat) (m : Machine) : Option (Machine × Status) :=
  let rs := decode_r_rs instr
  let rt := decode_r_rt instr
  let rd := decode_r_rd instr
  let source := i32 (m.CURRENT_STATE.REGS rs)
  let target := i32 (m.CURRENT_STATE.REGS rt)
  let m1 := if source < target then set_next_reg m rd 1 else set_next_reg m rd 0
  some (set_next_pc m1 (pc_plus_4 m), Status.STATUS_OK)

/-- Source: `handle_sltu`. -/
def handle_sltu (instr : Nat) (m : Machine) : Option (Machine × Status) :=
  let rs := decode_r_rs instr
  let rt := decode_r_rt instr
  let rd := decode_r_rd instr
  let source := m.CURRENT_STATE.REGS rs
  let target := m.CURRENT_STATE.REGS rt
  let m1 := if source < target then set_next_reg m rd 1 else set_next_reg m rd 0
  some (set_next_pc m1 (pc_plus_4 m), Status.STATUS_OK)

/-! ## `sim.c`: instruction handlers, by target (REGIMM)

The four handlers compare the `uint32_t` register with the literal `0`; the comparison is
unsigned, as written in the source. -/

/-- Source: `handle_bltz`. -/
def handle_bltz (instr : Nat) (m : Machine) : Option (Machine × Status) :=
  let rs := decode_i_rs instr
  let offset := branch_offset instr
  if m.CURRENT_STATE.REGS rs < 0 then
    some (set_next_pc m (pc_plus_offset m offset), Status.STATUS_OK)
  else
    some (set_next_pc m (pc_plus_4 m), Status.STATUS_OK)

/-- Source: `handle_bgez`. -/
def handle_bgez (instr : Nat) (m : Machine) : Option (Machine × Status) :=
  let rs := decode_i_rs instr
  let offset := branch_offset instr
  if m.CURRENT_STATE.REGS rs ≥ 0 then
    some (set_next_pc m (pc_plus_offset m offset), Status.STATUS_OK)
  else
    some (set_next_pc m (pc_plus_4 m), Status.STATUS_OK)

/-- Source: `handle_bltzal`. -/
def handle_bltzal (instr : Nat) (m : Machine) : Option (Machine × Status) :=
  let rs := decode_i_rs instr
  let offset := branch_offset instr
  let m1 := set_next_reg m REG_LINK (pc_plus_4 m)
  if m.CURRENT_STATE.REGS rs < 0 then
    some (set_next_pc m1 (pc_plus_offset m offset), Status.STATUS_OK)
  else
    some (set_next_pc m1 (pc_plus_4 m), Status.STATUS_OK)

/-- Source: `handle_bgezal`. -/
def handle_bgezal (instr : Nat) (m : Machine) : Option (Machine × Status) :=
  let rs := decode_i_rs instr
  let offset := branch_offset instr
  let m1 := set_next_reg m REG_LINK (pc_plus_4 m)
  if m.CURRENT_STATE.REGS rs ≥ 0 then
    some (set_next_pc m1 (pc_plus_offset m offset), Status.STATUS_OK)
  else
    some (set_next_pc m1 (pc_plus_4 m), Status.STATUS_OK)

/-! ## `sim.c`: unrecognized instruction handlers -/

/-- Source: `handle_unrecognized_opcode`. -/
def handle_unrecognized_opcode (_instr : Nat) (m : Machine) : Option (Machine × Status) :=
  some (m, Status.STATUS_ERR)

/-- Source: `handle_unrecognized_function`. -/
def handle_unrecognized_function (_instr : Nat) (m : Machine) : Option (Machine × Status) :=
  some (m, Status.STATUS_ERR)

/-- Source: `handle_unrecognized_target`. -/
def handle_unrecognized_target (_instr : Nat) (m : Machine) : Option (Machine × Status) :=
  some (m, Status.STATUS_ERR)

/-! ## Numeric codes of `mips.h` -/

/-- Modelled from the spec: `OPCODE_SPECIAL` of the absent `mips.h` (SPECIAL=0). -/
def OPCODE_SPECIAL : Nat := 0
/-- Modelled from the spec: `OPCODE_REGIMM` of the absent `mips.h` (REGIMM=1). -/
def OPCODE_REGIMM : Nat := 1
/-- Modelled from the spec: `OPCODE_J` of the absent `mips.h` (J=2). -/
def OPCODE_J : Nat := 2
/-- Modelled from the spec: `OPCODE_JAL` of the absent `mips.h` (JAL=3). -/
def OPCODE_JAL : Nat := 3
/-- Modelled from the spec: `OPCODE_BEQ` of the absent `mips.h` (BEQ=4). -/
def OPCODE_BEQ : Nat := 4
/-- Modelled from the spec: `OPCODE_BNE` of the absent `mips.h` (BNE=5). -/
def OPCODE_BNE : Nat := 5
/-- Modelled from the spec: `OPCODE_BLEZ` of the absent `mips.h` (BLEZ=6). -/
def OPCODE_BLEZ : Nat := 6
/-- Modelled from the spec: `OPCODE_BGTZ` of the absent `mips.h` (BGTZ=7). -/
def OPCODE_BGTZ : Nat := 7
/-- Modelled from the spec: `OPCODE_ADDI` of the absent `mips.h` (ADDI=8). -/
def OPCODE_ADDI : Nat := 8
/-- Modelled from the spec: `OPCODE_ADDIU` of the absent `mips.h` (ADDIU=9). -/
def OPCODE_ADDIU : Nat := 9
/-- Modelled from the spec: `OPCODE_SLTI` of the absent `mips.h` (SLTI=10). -/
def OPCODE_SLTI : Nat := 10
/-- Modelled from the spec: `OPCODE_SLTIU` of the absent `mips.h` (SLTIU=11). -/
def OPCODE_SLTIU : Nat := 11
/-- Modelled from the spec: `OPCODE_ANDI` of the absent `mips.h` (ANDI=12). -/
def OPCODE_ANDI : Nat := 12
/-- Modelled from the spec: `OPCODE_ORI` of the absent `mips.h` (ORI=13). -/
def OPCODE_ORI : Nat := 13
/-- Modelled from the spec: `OPCODE_XORI` of the absent `mips.h` (XORI=14). -/
def OPCODE_XORI : Nat := 14
/-- Modelled from the spec: `OPCODE_LUI` of the absent `mips.h` (LUI=15). -/
def OPCODE_LUI : Nat := 15
/-- Modelled from the spec: `OPCODE_LB` of the absent `mips.h` (LB=32). -/
def OPCODE_LB : Nat := 32
/-- Modelled from the spec: `OPCODE_LH` of the absent `mips.h` (LH=33). -/
def OPCODE_LH : Nat := 33
/-- Modelled from the spec: `OPCODE_LW` of the absent `mips.h` (LW=35). -/
def OPCODE_LW : Nat := 35
/-- Modelled from the spec: `OPCODE_LBU` of the absent `mips.h` (LBU=36). -/
def OPCODE_LBU : Nat := 36
/-- Modelled from the spec: `OPCODE_LHU` of the absent `mips.h` (LHU=37). -/
def OPCODE_LHU : Nat := 37
/-- Modelled from the spec: `OPCODE_SB` of the absent `mips.h` (SB=40). -/
def OPCODE_SB : Nat := 40
/-- Modelled from the spec: `OPCODE_SH` of the absent `mips.h` (SH=41). -/
def OPCODE_SH : Nat := 41
/-- Modelled from the spec: `OPCODE_SW` of the absent `mips.h` (SW=43). -/
def OPCODE_SW : Nat := 43
/-- Modelled from the spec: `FUNC_SLL` of the absent `mips.h` (SLL=0). -/
def FUNC_SLL : Nat := 0
/-- Modelled from the spec: `FUNC_SRL` of the absent `mips.h` (SRL=2). -/
def FUNC_SRL : Nat := 2
/-- Modelled from the spec: `FUNC_SRA` of the absent `mips.h` (SRA=3). -/
def FUNC_SRA : Nat := 3
/-- Modelled from the spec: `FUNC_SLLV` of the absent `mips.h` (SLLV=4). -/
def FUNC_SLLV : Nat := 4
/-- Modelled from the spec: `FUNC_SRLV` of the absent `mips.h` (SRLV=6). -/
def FUNC_SRLV : Nat := 6
/-- Modelled from the spec: `FUNC_SRAV` of the absent `mips.h` (SRAV=7). -/
def FUNC_SRAV : Nat := 7
/-- Modelled from the spec: `FUNC_JR` of the absent `mips.h` (JR=8). -/
def FUNC_JR : Nat := 8
/-- Modelled from the spec: `FUNC_JALR` of the absent `mips.h` (JALR=9). -/
def FUNC_JALR : Nat := 9
/-- Modelled from the spec: `FUNC_SYSCALL` of the absent `mips.h` (SYSCALL=12). -/
def FUNC_SYSCALL : Nat := 12
/-- Modelled from the spec: `FUNC_MFHI` of the absent `mips.h` (MFHI=16). -/
def FUNC_MFHI : Nat := 16
/-- Modelled from the spec: `FUNC_MTHI` of the absent `mips.h` (MTHI=17). -/
def FUNC_MTHI : Nat := 17
/-- Modelled from the spec: `FUNC_MFLO` of the absent `mips.h` (MFLO=18). -/
def FUNC_MFLO : Nat := 18
/-- Modelled from the spec: `FUNC_MTLO` of the absent `mips.h` (MTLO=19). -/
def FUNC_MTLO : Nat := 19
/-- Modelled from the spec: `FUNC_MULT` of the absent `mips.h` (MULT=24). -/
def FUNC_MULT : Nat := 24
/-- Modelled from the spec: `FUNC_MULTU` of the absent `mips.h` (MULTU=25). -/
def FUNC_MULTU : Nat := 25
/-- Modelled from the spec: `FUNC_DIV` of the absent `mips.h` (DIV=26). -/
def FUNC_DIV : Nat := 26
/-- Modelled from the spec: `FUNC_DIVU` of the absent `mips.h` (DIVU=27). -/
def FUNC_DIVU : Nat := 27
/-- Modelled from the spec: `FUNC_ADD` of the absent `mips.h` (ADD=32). -/
def FUNC_ADD : Nat := 32
/-- Modelled from the spec: `FUNC_ADDU` of the absent `mips.h` (ADDU=33). -/
def FUNC_ADDU : Nat := 33
/-- Modelled from the spec: `FUNC_SUB` of the absent `mips.h` (SUB=34). -/
def FUNC_SUB : Nat := 34
/-- Modelled from the spec: `FUNC_SUBU` of the absent `mips.h` (SUBU=35). -/
def FUNC_SUBU : Nat := 35
/-- Modelled from the spec: `FUNC_AND` of the absent `mips.h` (AND=36). -/
def FUNC_AND : Nat := 36
/-- Modelled from the spec: `FUNC_OR` of the absent `mips.h` (OR=37). -/
def FUNC_OR : Nat := 37
/-- Modelled from the spec: `FUNC_XOR` of the absent `mips.h` (XOR=38). -/
def FUNC_XOR : Nat := 38
/-- Modelled from the spec: `FUNC_NOR` of the absent `mips.h` (NOR=39). -/
def FUNC_NOR : Nat := 39
/-- Modelled from the spec: `FUNC_SLT` of the absent `mips.h` (SLT=42). -/
def FUNC_SLT : Nat := 42
/-- Modelled from the spec: `FUNC_SLTU` of the absent `mips.h` (SLTU=43). -/
def FUNC_SLTU : Nat := 43
/-- Modelled from the spec: `TARGET_BLTZ` of the absent `mips.h` (BLTZ=0). -/
def TARGET_BLTZ : Nat := 0
/-- Modelled from the spec: `TARGET_BGEZ` of the absent `mips.h` (BGEZ=1). -/
def TARGET_BGEZ : Nat := 1
/-- Modelled from the spec: `TARGET_BLTZAL` of the absent `mips.h` (BLTZAL=16). -/
def TARGET_BLTZAL : Nat := 16
/-- Modelled from the spec: `TARGET_BGEZAL` of the absent `mips.h` (BGEZAL=17). -/
def TARGET_BGEZAL : Nat := 17

/-! ## Dispatch tables

A table slot holds a function pointer; the pointers are the constructors of `Handler`, and
`Handler.call` is the call through such a pointer. -/

/-- The handler functions of `sim.c` a table slot can point to, named by mnemonic. -/
inductive Handler where
  | J
  | JAL
  | BEQ
  | BNE
  | BLEZ
  | BGTZ
  | ADDI
  | ADDIU
  | SLTI
  | SLTIU
  | ANDI
  | ORI
  | XORI
  | LUI
  | LB
  | LH
  | LW
  | LBU
  | LHU
  | SB
  | SH
  | SW
  | SLL
  | SRL
  | SRA
  | SLLV
  | SRLV
  | SRAV
  | JR
  | JALR
  | SYSCALL
  | MFHI
  | MTHI
  | MFLO
  | MTLO
  | MULT
  | MULTU
  | DIV
  | DIVU
  | ADD
  | ADDU
  | SUB
  | SUBU
  | AND
  | OR
  | XOR
  | NOR
  | SLT
  | SLTU
  | BLTZ
  | BGEZ
  | BLTZAL
  | BGEZAL
  | UNRECOGNIZED_OPCODE
  | UNRECOGNIZED_FUNCTION
  | UNRECOGNIZED_TARGET
  deriving DecidableEq, Repr

/-- The call `(*slot)(instr)` through a handler pointer. -/
def Handler.call : Handler → Nat → Machine → Option (Machine × Status)
  | .J => handle_j
  | .JAL => handle_jal
  | .BEQ => handle_beq
  | .BNE => handle_bne
  | .BLEZ => handle_blez
  | .BGTZ => handle_bgtz
  | .ADDI => handle_addi
  | .ADDIU => handle_addiu
  | .SLTI => handle_slti
  | .SLTIU => handle_sltiu
  | .ANDI => handle_andi
  | .ORI => handle_ori
  | .XORI => handle_xori
  | .LUI => handle_lui
  | .LB => handle_lb
  | .LH => handle_lh
  | .LW => handle_lw
  | .LBU => handle_lbu
  | .LHU => handle_lhu
  | .SB => handle_sb
  | .SH => handle_sh
  | .SW => handle_sw
  | .SLL => handle_sll
  | .SRL => handle_srl
  | .SRA => handle_sra
  | .SLLV => handle_sllv
  | .SRLV => handle_srlv
  | .SRAV => handle_srav
  | .JR => handle_jr
  | .JALR => handle_jalr
  | .SYSCALL => handle_syscall
  | .MFHI => handle_mfhi
  | .MTHI => handle_mthi
  | .MFLO => handle_mflo
  | .MTLO => handle_mtlo
  | .MULT => handle_mult
  | .MULTU => handle_multu
  | .DIV => handle_div
  | .DIVU => handle_divu
  | .ADD => handle_add
  | .ADDU => handle_addu
  | .SUB => handle_sub
  | .SUBU => handle_subu
  | .AND => handle_and
  | .OR => handle_or
  | .XOR => handle_xor
  | .NOR => handle_nor
  | .SLT => handle_slt
  | .SLTU => handle_sltu
  | .BLTZ => handle_bltz
  | .BGEZ => handle_bgez
  | .BLTZAL => handle_bltzal
  | .BGEZAL => handle_bgezal
  | .UNRECOGNIZED_OPCODE => handle_unrecognized_opcode
  | .UNRECOGNIZED_FUNCTION => handle_unrecognized_function
  | .UNRECOGNIZED_TARGET => handle_unrecognized_target

/-- The three global tables `FUNCTION_DISPATCH`, `TARGET_DISPATCH`, `OPCODE_DISPATCH`; a slot
is `none` while it holds the null pointer. -/
structure Dispatch where
  FUNCTION_DISPATCH : List (Option Handler)
  TARGET_DISPATCH : List (Option Handler)
  OPCODE_DISPATCH : List (Option Handler)

/-- The loop `for (i = 0; i < DISPATCH_SIZE; i++) T[i] = h`. -/
def fill_table (T : List (Option Handler)) (h : Handler) : List (Option Handler) :=
  (List.range DISPATCH_SIZE).foldl (fun t i => t.set i (some h)) T

/-- The assignment `T[k] = h`. -/
def install (T : List (Option Handler)) (k : Nat) (h : Handler) : List (Option Handler) :=
  T.set k (some h)

/-- Source: `init_opcode_dispatch`: `memset` to null, the fill loop, then the known mnemonics. -/
def init_opcode_dispatch (d : Dispatch) : Dispatch :=
  let t0 : List (Option Handler) := List.replicate DISPATCH_SIZE none
  let t1 := fill_table t0 Handler.UNRECOGNIZED_OPCODE
  { d with OPCODE_DISPATCH := t1
      |> (install · OPCODE_J Handler.J)
      |> (install · OPCODE_JAL Handler.JAL)
      |> (install · OPCODE_BEQ Handler.BEQ)
      |> (install · OPCODE_BNE Handler.BNE)
      |> (install · OPCODE_BLEZ Handler.BLEZ)
      |> (install · OPCODE_BGTZ Handler.BGTZ)
      |> (install · OPCODE_ADDI Handler.ADDI)
      |> (install · OPCODE_ADDIU Handler.ADDIU)
      |> (install · OPCODE_SLTI Handler.SLTI)
      |> (install · OPCODE_SLTIU Handler.SLTIU)
      |> (install · OPCODE_ANDI Handler.ANDI)
      |> (install · OPCODE_ORI Handler.ORI)
      |> (install · OPCODE_XORI Handler.XORI)
      |> (install · OPCODE_LUI Handler.LUI)
      |> (install · OPCODE_LB Handler.LB)
      |> (install · OPCODE_LH Handler.LH)
      |> (install · OPCODE_LW Handler.LW)
      |> (install · OPCODE_LBU Handler.LBU)
      |> (install · OPCODE_LW Handler.LW)
      |> (install · OPCODE_LHU Handler.LHU)
      |> (install · OPCODE_SB Handler.SB)
      |> (install · OPCODE_SH Handler.SH)
      |> (install · OPCODE_SW Handler.SW) }

/-- Source: `init_function_dispatch`: `memset` to null, the fill loop, then the known mnemonics. -/
def init_function_dispatch (d : Dispatch) : Dispatch :=
  let t0 : List (Option Handler) := List.replicate DISPATCH_SIZE none
  let t1 := fill_table t0 Handler.UNRECOGNIZED_FUNCTION
  { d with FUNCTION_DISPATCH := t1
      |> (install · FUNC_SLL Handler.SLL)
      |> (install · FUNC_SRL Handler.SRL)
      |> (install · FUNC_SRA Handler.SRA)
      |> (install · FUNC_SLLV Handler.SLLV)
      |> (install · FUNC_SRLV Handler.SRLV)
      |> (install · FUNC_SRAV Handler.SRAV)
      |> (install · FUNC_JR Handler.JR)
      |> (install · FUNC_JALR Handler.JALR)
      |> (install · FUNC_SYSCALL Handler.SYSCALL)
      |> (install · FUNC_MFHI Handler.MFHI)
      |> (install · FUNC_MTHI Handler.MTHI)
      |> (install · FUNC_MFLO Handler.MFLO)
      |> (install · FUNC_MTLO Handler.MTLO)
      |> (install · FUNC_MULT Handler.MULT)
      |> (install · FUNC_MULTU Handler.MULTU)
      |> (install · FUNC_DIV Handler.DIV)
      |> (install · FUNC_DIVU Handler.DIVU)
      |> (install · FUNC_ADD Handler.ADD)
      |> (install · FUNC_ADDU Handler.ADDU)
      |> (install · FUNC_SUB Handler.SUB)
      |> (install · FUNC_SUBU Handler.SUBU)
      |> (install · FUNC_AND Handler.AND)
      |> (install · FUNC_OR Handler.OR)
      |> (install · FUNC_XOR Handler.XOR)
      |> (install · FUNC_NOR Handler.NOR)
      |> (install · FUNC_SLT Handler.SLT)
      |> (install · FUNC_SLTU Handler.SLTU) }

/-- Source: `init_target_dispatch`: `memset` to null, the fill loop, then the known mnemonics. -/
def init_target_dispatch (d : Dispatch) : Dispatch :=
  let t0 : List (Option Handler) := List.replicate DISPATCH_SIZE none
  let t1 := fill_table t0 Handler.UNRECOGNIZED_TARGET
  { d with TARGET_DISPATCH := t1
      |> (install · TARGET_BLTZ Handler.BLTZ)
      |> (install · TARGET_BGEZ Handler.BGEZ)
      |> (install · TARGET_BLTZAL Handler.BLTZAL)
      |> (install · TARGET_BGEZAL Handler.BGEZAL) }

/-- Modelled from the spec: `initialize_dispatch()`, the host call that populates the three
tables before the first step; the caller of the three `init_*` functions is not in `sim.c`. -/
def initialize_dispatch (d : Dispatch) : Dispatch :=
  init_target_dispatch (init_function_dispatch (init_opcode_dispatch d))

/-- The call `(*T[k])(instr)`: no result when the index is outside the table or the slot is
null. -/
def call_slot (T : List (Option Handler)) (k instr : Nat) (m : Machine) :
    Option (Machine × Status) :=
  match T[k]? with
  | some (some h) => h.call instr m
  | _ => none

/-! ## `sim.c`: `process_instruction` -/

/-- Source: `process_instruction`. The status a handler returns is dropped, as in the source
(the function is `void`). -/
def process_instruction (d : Dispatch) (m : Machine) : Option Machine :=
  let raw_instr := mem_read_32 m m.CURRENT_STATE.PC
  if raw_instr = 0 then
    some { m with RUN_BIT := 0 }
  else
    let op := decode_opcode raw_instr
    if op = OPCODE_SPECIAL then
      let func := decode_r_funct raw_instr
      (call_slot d.FUNCTION_DISPATCH func raw_instr m).map Prod.fst
    else if op = OPCODE_REGIMM then
      let target := decode_i_rt raw_instr
      (call_slot d.TARGET_DISPATCH target raw_instr m).map Prod.fst
    else
      (call_slot d.OPCODE_DISPATCH op raw_instr m).map Prod.fst

/-- The table slot `process_instruction` calls for a non-zero instruction word: the pointer
it reads, before the call. -/
def dispatch_slot (d : Dispatch) (raw_instr : Nat) : Option (Option Handler) :=
  let op := decode_opcode raw_instr
  if op = OPCODE_SPECIAL then d.FUNCTION_DISPATCH[decode_r_funct raw_instr]?
  else if op = OPCODE_REGIMM then d.TARGET_DISPATCH[decode_i_rt raw_instr]?
  else d.OPCODE_DISPATCH[op]?

/-- Modelled from the spec: the commit of the host (in the absent `shell.c`), which copies
next to current. -/
def commit (m : Machine) : Machine := { m with CURRENT_STATE := m.NEXT_STATE }

/-- Modelled from the spec: `step()`, one instruction followed by the commit. -/
def step (d : Dispatch) (m : Machine) : Option Machine :=
  (process_instruction d m).map commit

/-! ## The specification side

The definitions below follow the words of the specification, not the source; the theorems
compare them with the embedding above. -/

/-- Spec 4.1: `opcode(w) = (w >> 26) & 0x3F`. -/
def spec_opcode (w : Nat) : Nat := (w >>> 26) &&& 0x3F
/-- Spec 4.1: `rs(w) = (w >> 21) & 0x1F`. -/
def spec_rs (w : Nat) : Nat := (w >>> 21) &&& 0x1F
/-- Spec 4.1: `rt(w) = (w >> 16) & 0x1F`. -/
def spec_rt (w : Nat) : Nat := (w >>> 16) &&& 0x1F
/-- Spec 4.1: `rd(w) = (w >> 11) & 0x1F`. -/
def spec_rd (w : Nat) : Nat := (w >>> 11) &&& 0x1F
/-- Spec 4.1: `shamt(w) = (w >> 6) & 0x1F`. -/
def spec_shamt (w : Nat) : Nat := (w >>> 6) &&& 0x1F
/-- Spec 4.1: `funct(w) = w & 0x3F`. -/
def spec_funct (w : Nat) : Nat := w &&& 0x3F
/-- Spec 4.1: `target26(w) = w & 0x03FF_FFFF`. -/
def spec_target26 (w : Nat) : Nat := w &&& 0x03FFFFFF

/-- The value of a 16-bit pattern read as a signed (complement of two) number. -/
def signed16 (x : Nat) : Int := if x < 0x8000 then (x : Int) else (x : Int) - 0x10000

/-- Spec 4.4: `SE(x)`, the sign extension of a 16-bit pattern to 32 bits: the upper half is
filled with copies of bit 15. -/
def SE (x : Nat) : Nat := if x < 0x8000 then x else 0xFFFF0000 + x

/-- Spec 4.1: `imm16(w)`, the sign extension to 32 bits of `w & 0xFFFF`. -/
def spec_imm16 (w : Nat) : Nat := SE (w &&& 0xFFFF)

/-- Spec 4.3: the opcode assignments of the primary table. -/
def spec_primary : Nat → Option Handler
  | 2 => some Handler.J
  | 3 => some Handler.JAL
  | 4 => some Handler.BEQ
  | 5 => some Handler.BNE
  | 6 => some Handler.BLEZ
  | 7 => some Handler.BGTZ
  | 8 => some Handler.ADDI
  | 9 => some Handler.ADDIU
  | 10 => some Handler.SLTI
  | 11 => some Handler.SLTIU
  | 12 => some Handler.ANDI
  | 13 => some Handler.ORI
  | 14 => some Handler.XORI
  | 15 => some Handler.LUI
  | 32 => some Handler.LB
  | 33 => some Handler.LH
  | 35 => some Handler.LW
  | 36 => some Handler.LBU
  | 37 => some Handler.LHU
  | 40 => some Handler.SB
  | 41 => some Handler.SH
  | 43 => some Handler.SW
  | _ => none

/-- Spec 4.3: the function assignments of the SPECIAL table. -/
def spec_function : Nat → Option Handler
  | 0 => some Handler.SLL
  | 2 => some Handler.SRL
  | 3 => some Handler.SRA
  | 4 => some Handler.SLLV
  | 6 => some Handler.SRLV
  | 7 => some Handler.SRAV
  | 8 => some Handler.JR
  | 9 => some Handler.JALR
  | 12 => some Handler.SYSCALL
  | 16 => some Handler.MFHI
  | 17 => some Handler.MTHI
  | 18 => some Handler.MFLO
  | 19 => some Handler.MTLO
  | 24 => some Handler.MULT
  | 25 => some Handler.MULTU
  | 26 => some Handler.DIV
  | 27 => some Handler.DIVU
  | 32 => some Handler.ADD
  | 33 => some Handler.ADDU
  | 34 => some Handler.SUB
  | 35 => some Handler.SUBU
  | 36 => some Handler.AND
  | 37 => some Handler.OR
  | 38 => some Handler.XOR
  | 39 => some Handler.NOR
  | 42 => some Handler.SLT
  | 43 => some Handler.SLTU
  | _ => none

/-- Spec 4.3: the regimm assignments. -/
def spec_regimm : Nat → Option Handler
  | 0 => some Handler.BLTZ
  | 1 => some Handler.BGEZ
  | 16 => some Handler.BLTZAL
  | 17 => some Handler.BGEZAL
  | _ => none

/-- Spec 4.3: the handler the step procedure selects for a word, when the word names an
assigned code: by `funct` when `opcode = 0`, by `rt` when `opcode = 1`, else by `opcode`. -/
def spec_assignment (w : Nat) : Option Handler :=
  if spec_opcode w = 0 then spec_function (spec_funct w)
  else if spec_opcode w = 1 then spec_regimm (spec_rt w)
  else spec_primary (spec_opcode w)

/-- The default handler of the table the step procedure consults for a word. -/
def spec_default (w : Nat) : Handler :=
  if spec_opcode w = 0 then Handler.UNRECOGNIZED_FUNCTION
  else if spec_opcode w = 1 then Handler.UNRECOGNIZED_TARGET
  else Handler.UNRECOGNIZED_OPCODE

/-- The handler the tables hold for a word: the assigned one, or the default of its table. -/
def spec_handler (w : Nat) : Handler := (spec_assignment w).getD (spec_default w)

/-- The jump handlers: J, JAL, JR, JALR. -/
def Handler.is_jump : Handler → Bool
  | .J | .JAL | .JR | .JALR => true
  | _ => false

/-- The branch handlers: BEQ, BNE, BLEZ, BGTZ, BLTZ, BGEZ, BLTZAL, BGEZAL. -/
def Handler.is_branch : Handler → Bool
  | .BEQ | .BNE | .BLEZ | .BGTZ | .BLTZ | .BGEZ | .BLTZAL | .BGEZAL => true
  | _ => false

/-- The three default handlers for unrecognised encodings. -/
def Handler.is_unrecognized : Handler → Bool
  | .UNRECOGNIZED_OPCODE | .UNRECOGNIZED_FUNCTION | .UNRECOGNIZED_TARGET => true
  | _ => false

/-- The condition a branch handler evaluates in its `if`, on the unsigned register values as
the source writes it; `false` for a handler that is not a branch. -/
def branch_condition (h : Handler) (w : Nat) (m : Machine) : Bool :=
  let rs := m.CURRENT_STATE.REGS (decode_i_rs w)
  let rt := m.CURRENT_STATE.REGS (decode_i_rt w)
  match h with
  | .BEQ => decide (rs = rt)
  | .BNE => decide (rs ≠ rt)
  | .BLEZ => decide (rs ≤ 0)
  | .BGTZ => decide (rs > 0)
  | .BLTZ | .BLTZAL => decide (rs < 0)
  | .BGEZ | .BGEZAL => decide (rs ≥ 0)
  | _ => false

/-- The one case in which a handler has no result: DIV or DIVU executed with a zero divisor
register. -/
def divides_by_zero (h : Handler) (w : Nat) (m : Machine) : Prop :=
  (h = Handler.DIV ∨ h = Handler.DIVU) ∧ m.CURRENT_STATE.REGS (decode_r_rt w) = 0

instance (h : Handler) (w : Nat) (m : Machine) : Decidable (divides_by_zero h w m) :=
  inferInstanceAs
    (Decidable ((h = Handler.DIV ∨ h = Handler.DIVU) ∧ m.CURRENT_STATE.REGS (decode_r_rt w) = 0))

/-- The general register a handler writes in `NEXT_STATE`: `rt` for the immediate ALU
operations, LUI and the loads; `rd` for the register ALU operations, the shifts, MFHI, MFLO
and JALR; 31 for JAL, BLTZAL and BGEZAL; none for the other handlers. -/
def destination (h : Handler) (w : Nat) : Option Nat :=
  match h with
  | .ADDI | .ADDIU | .SLTI | .SLTIU | .ANDI | .ORI | .XORI | .LUI
  | .LB | .LH | .LW | .LBU | .LHU => some (decode_i_rt w)
  | .SLL | .SRL | .SRA | .SLLV | .SRLV | .SRAV | .MFHI | .MFLO | .JALR
  | .ADD | .ADDU | .SUB | .SUBU | .AND | .OR | .XOR | .NOR | .SLT | .SLTU =>
    some (decode_r_rd w)
  | .JAL | .BLTZAL | .BGEZAL => some REG_LINK
  | _ => none

/-- The value stored under a key in an association list, 0 when the key is absent. -/
def lookup (l : List (Nat × Nat)) (k : Nat) : Nat :=
  match l.lookup k with
  | some v => v
  | none => 0

/-- Spec 8: the starting point of the end-to-end scenarios: PC at 0x00400000, the listed
registers preloaded and all others zero, the listed memory words loaded and all others zero,
the run flag set; current and next state agree. -/
def scenario (mem regs : List (Nat × Nat)) : Machine :=
  let s : CPU_State := { PC := 0x00400000, REGS := lookup regs, HI := 0, LO := 0 }
  { CURRENT_STATE := s, NEXT_STATE := s, RUN_BIT := 1, MEM := lookup mem }

/-- The dispatch tables after `initialize_dispatch`, started from empty tables. -/
def TABLES : Dispatch := initialize_dispatch ⟨[], [], []⟩

/-- Spec 4.4: `(i32) x`, the signed reading of a 32-bit register value. -/
def signed32 (x : Nat) : Int :=
  if x < 0x80000000 then (x : Int) else (x : Int) - 0x100000000

/-- Spec 4.4: `ZE(x)`, the zero extension of a 16-bit immediate to 32 bits: the upper 16 bits
are zero. -/
def ZE (x : Nat) : Nat := x &&& 0xFFFF

/-- Spec 4.4: `low32(result)`, the low word of a 64-bit result given as an integer. -/
def low32 (z : Int) : Nat := (z % 4294967296).toNat

/-- Spec 4.4: `high32(result)`, the high word of a 64-bit result given as an integer. -/
def high32 (z : Int) : Nat := ((z / 4294967296) % 4294967296).toNat

/-- Spec 4.4: the next PC of a branch: `PC + (SE(imm16) << 2)` when taken, `PC + 4` when not,
both modulo 2^32. -/
def spec_branch_pc (taken : Bool) (pc w : Nat) : Nat :=
  if taken then (pc + (spec_imm16 w <<< 2)) % 4294967296 else (pc + 4) % 4294967296

/-- Spec 4.4: the arithmetic right shift of a 32-bit value: the signed reading divided by
2^sa rounding down, so that the vacated high bits repeat bit 31. -/
def spec_sra (x sa : Nat) : Nat := low32 (signed32 x / 2 ^ sa)

/-- Spec 4.4: the word SB stores: the old word with its low byte replaced. -/
def spec_sb_word (old r : Nat) : Nat := (old &&& 0xFFFFFF00) ||| (r &&& 0xFF)

/-- Spec 4.4: the word SH stores: the old word with its low halfword replaced. -/
def spec_sh_word (old r : Nat) : Nat := (old &&& 0xFFFF0000) ||| (r &&& 0xFFFF)

/-- The next PC a handler call leaves, when the call returns. -/
def result_pc (r : Option (Machine × Status)) : Option Nat :=
  r.map (fun x => x.1.NEXT_STATE.PC)

/-- The value a handler call leaves in general register `i` of the next state. -/
def result_reg (r : Option (Machine × Status)) (i : Nat) : Option Nat :=
  r.map (fun x => x.1.NEXT_STATE.REGS i)

/-- The pair (HI, LO) a handler call leaves in the next state. -/
def result_hi_lo (r : Option (Machine × Status)) : Option (Nat × Nat) :=
  r.map (fun x => (x.1.NEXT_STATE.HI, x.1.NEXT_STATE.LO))

/-- The memory word a handler call leaves at address `a`. -/
def result_mem (r : Option (Machine × Status)) (a : Nat) : Option Nat :=
  r.map (fun x => x.1.MEM a)

/-- The run flag a handler call leaves. -/
def result_run (r : Option (Machine × Status)) : Option Nat :=
  r.map (fun x => x.1.RUN_BIT)

/-- Spec 4.4: the sign extension of a byte to 32 bits: the upper 24 bits are filled with
copies of bit 7. -/
def SE8 (x : Nat) : Nat := if x < 0x80 then x else 0xFFFFFF00 + x

/-- Spec 4.4: the 32-bit complement `~x` of a 32-bit value. -/
def spec_not32 (x : Nat) : Nat := 0xFFFFFFFF - x

/-- Spec 4.4: the 32-bit difference `(a - b) mod 2^32`. -/
def spec_sub32 (a b : Nat) : Nat := low32 ((a : Int) - (b : Int))

/-- The handlers that write HI or LO: MULT, MULTU, DIV, DIVU, MTHI and MTLO. -/
def Handler.writes_hi_lo : Handler → Bool
  | .MULT | .MULTU | .DIV | .DIVU | .MTHI | .MTLO => true
  | _ => false

/-- The handlers that write memory: SB, SH and SW. -/
def Handler.writes_memory : Handler → Bool
  | .SB | .SH | .SW => true
  | _ => false

/-- The handler that may change the run flag: SYSCALL. -/
def Handler.writes_run : Handler → Bool
  | .SYSCALL => true
  | _ => false

/-- What a handler call leaves behind outside `CURRENT_STATE`: the next state, the run flag,
the memory image and the status. -/
def outcome (r : Option (Machine × Status)) : Option (CPU_State × Nat × (Nat → Nat) × Status) :=
  r.map (fun x => (x.1.NEXT_STATE, x.1.RUN_BIT, x.1.MEM, x.2))

/-- The machine whose current register file is replaced by `R`; used to state that a handler
reads no register outside the indices 0..31. -/
def with_regs (m : Machine) (R : Nat → Nat) : Machine :=
  { m with CURRENT_STATE := { m.CURRENT_STATE with REGS := R } }

/-! ## Helper lemmas: bit fields -/

/-- Extracting a bit field by mask-then-shift is the same as shift-then-mask. -/
theorem mask_shift_eq (w lo n : Nat) :
    (w &&& (2 ^ lo * (2 ^ n - 1))) >>> lo = (w >>> lo) &&& (2 ^ n - 1) := by
  apply Nat.eq_of_testBit_eq
  intro i
  simp only [Nat.testBit_shiftRight, Nat.testBit_and, Nat.testBit_mul_pow_two,
    Nat.testBit_two_pow_sub_one]
  simp

theorem decode_opcode_eq (w : Nat) : decode_opcode w = spec_opcode w := by
  simpa [decode_opcode, spec_opcode, MASK_OPCODE, SHIFT_OPCODE] using mask_shift_eq w 26 6

theorem decode_i_rs_eq (w : Nat) : decode_i_rs w = spec_rs w := by
  simpa [decode_i_rs, spec_rs, MASK_I_RS, SHIFT_I_RS] using mask_shift_eq w 21 5

theorem decode_i_rt_eq (w : Nat) : decode_i_rt w = spec_rt w := by
  simpa [decode_i_rt, spec_rt, MASK_I_RT, SHIFT_I_RT] using mask_shift_eq w 16 5

theorem decode_r_rs_eq (w : Nat) : decode_r_rs w = spec_rs w := by
  simpa [decode_r_rs, spec_rs, MASK_R_RS, SHIFT_R_RS] using mask_shift_eq w 21 5

theorem decode_r_rt_eq (w : Nat) : decode_r_rt w = spec_rt w := by
  simpa [decode_r_rt, spec_rt, MASK_R_RT, SHIFT_R_RT] using mask_shift_eq w 16 5

theorem decode_r_rd_eq (w : Nat) : decode_r_rd w = spec_rd w := by
  simpa [decode_r_rd, spec_rd, MASK_R_RD, SHIFT_R_RD] using mask_shift_eq w 11 5

theorem decode_r_shamt_eq (w : Nat) : decode_r_shamt w = spec_shamt w := by
  simpa [decode_r_shamt, spec_shamt, MASK_R_SHAMT, SHIFT_R_SHAMT] using mask_shift_eq w 6 5

theorem decode_r_funct_eq (w : Nat) : decode_r_funct w = spec_funct w := by
  simp [decode_r_funct, spec_funct, MASK_R_FUNCT, SHIFT_R_FUNCT]

theorem decode_j_target_eq (w : Nat) : decode_j_target w = spec_target26 w := by
  simp [decode_j_target, spec_target26, MASK_J_TARGET, SHIFT_J_TARGET]

theorem imm_field_lt (w : Nat) : w &&& 0xFFFF < 65536 :=
  Nat.and_lt_two_pow w (by norm_num : (0xFFFF : Nat) < 2 ^ 16)

theorem decode_i_immediate_eq (w : Nat) : decode_i_immediate w = signed16 (w &&& 0xFFFF) := by
  have h := imm_field_lt w
  simp only [decode_i_immediate, MASK_I_IMMEDIATE, SHIFT_I_IMMEDIATE, Nat.shiftRight_zero, i16,
    signed16]
  split <;> split <;> omega

theorem u32_decode_i_immediate (w : Nat) : u32 (decode_i_immediate w) = SE (w &&& 0xFFFF) := by
  have h := imm_field_lt w
  rw [decode_i_immediate_eq]
  simp only [u32, signed16, SE]
  split <;> omega

theorem spec_opcode_lt (w : Nat) : spec_opcode w < 64 :=
  Nat.and_lt_two_pow _ (by norm_num : (0x3F : Nat) < 2 ^ 6)

theorem spec_funct_lt (w : Nat) : spec_funct w < 64 :=
  Nat.and_lt_two_pow _ (by norm_num : (0x3F : Nat) < 2 ^ 6)

theorem spec_rt_lt (w : Nat) : spec_rt w < 32 :=
  Nat.and_lt_two_pow _ (by norm_num : (0x1F : Nat) < 2 ^ 5)

/-! ## Helper lemmas: the dispatch tables -/

theorem tables_opcode (d : Dispatch) :
    (initialize_dispatch d).OPCODE_DISPATCH = TABLES.OPCODE_DISPATCH := rfl

theorem tables_function (d : Dispatch) :
    (initialize_dispatch d).FUNCTION_DISPATCH = TABLES.FUNCTION_DISPATCH := rfl

theorem tables_target (d : Dispatch) :
    (initialize_dispatch d).TARGET_DISPATCH = TABLES.TARGET_DISPATCH := rfl

theorem opcode_slot : ∀ k, k < 64 →
    TABLES.OPCODE_DISPATCH[k]? =
      some (some ((spec_primary k).getD Handler.UNRECOGNIZED_OPCODE)) := by
  decide

theorem function_slot : ∀ k, k < 64 →
    TABLES.FUNCTION_DISPATCH[k]? =
      some (some ((spec_function k).getD Handler.UNRECOGNIZED_FUNCTION)) := by
  decide

theorem target_slot : ∀ k, k < 64 →
    TABLES.TARGET_DISPATCH[k]? =
      some (some ((spec_regimm k).getD Handler.UNRECOGNIZED_TARGET)) := by
  decide

/-- The slot read for a word once the tables are initialised, in terms of the spec tables. -/
theorem dispatch_slot_init (d : Dispatch) (w : Nat) :
    dispatch_slot (initialize_dispatch d) w = some (some (spec_handler w)) := by
  have h1 := spec_opcode_lt w
  have h2 := spec_funct_lt w
  have h3 : spec_rt w < 64 := Nat.lt_trans (spec_rt_lt w) (by norm_num)
  simp only [dispatch_slot, decode_opcode_eq, decode_r_funct_eq, decode_i_rt_eq, tables_opcode,
    tables_function, tables_target, OPCODE_SPECIAL, OPCODE_REGIMM, spec_handler,
    spec_assignment, spec_default]
  split
  · exact function_slot _ h2
  · split
    · exact target_slot _ h3
    · exact opcode_slot _ h1

/-- For a non-zero word `process_instruction` calls the slot `dispatch_slot` reads. -/
theorem process_instruction_eq (d : Dispatch) (m : Machine) (w : Nat)
    (hfetch : mem_read_32 m m.CURRENT_STATE.PC = w) (hw : w ≠ 0) :
    process_instruction d m =
      match dispatch_slot d w with
      | some (some h) => (h.call w m).map Prod.fst
      | _ => none := by
  simp only [process_instruction, hfetch, hw, if_false, dispatch_slot, call_slot]
  split
  · cases d.FUNCTION_DISPATCH[decode_r_funct w]? with
    | none => rfl
    | some o => cases o <;> rfl
  · split
    · cases d.TARGET_DISPATCH[decode_i_rt w]? with
      | none => rfl
      | some o => cases o <;> rfl
    · cases d.OPCODE_DISPATCH[decode_opcode w]? with
      | none => rfl
      | some o => cases o <;> rfl

/-- After initialisation a non-zero word runs the handler the tables hold for it. -/
theorem process_instruction_init (d : Dispatch) (m : Machine) (w : Nat)
    (hfetch : mem_read_32 m m.CURRENT_STATE.PC = w) (hw : w ≠ 0) :
    process_instruction (initialize_dispatch d) m = ((spec_handler w).call w m).map Prod.fst := by
  rw [process_instruction_eq _ m w hfetch hw, dispatch_slot_init]

/-! ## Claims C1 and C2 -/

/-- C1. After the three dispatch tables are initialised, a non-zero word `w` whose codes the
spec assigns to a handler `h` (by `funct` when `opcode = 0`, by `rt` when `opcode = 1`,
otherwise by `opcode`) makes `process_instruction` read the slot of `h` and run exactly
`h` on `w`. -/
theorem C1_dispatch_assignment (d : Dispatch) (m : Machine) (w : Nat) (h : Handler)
    (hfetch : mem_read_32 m m.CURRENT_STATE.PC = w) (hw : w ≠ 0)
    (hassign : spec_assignment w = some h) :
    dispatch_slot (initialize_dispatch d) w = some (some h) ∧
    process_instruction (initialize_dispatch d) m = (h.call w m).map Prod.fst := by
  have hs : spec_handler w = h := by simp [spec_handler, hassign]
  exact ⟨hs ▸ dispatch_slot_init d w, hs ▸ process_instruction_init d m w hfetch hw⟩

/-- Witness of C1: the word 0x24020005 (ADDIU r2, r0, 5) at PC 0x00400000. -/
theorem C1_dispatch_assignment_witness :
    dispatch_slot (initialize_dispatch ⟨[], [], []⟩) 0x24020005 = some (some Handler.ADDIU) ∧
    process_instruction (initialize_dispatch ⟨[], [], []⟩)
        (scenario [(0x00400000, 0x24020005)] [])
      = (Handler.ADDIU.call 0x24020005 (scenario [(0x00400000, 0x24020005)] [])).map Prod.fst :=
  C1_dispatch_assignment ⟨[], [], []⟩ (scenario [(0x00400000, 0x24020005)] []) 0x24020005
    Handler.ADDIU (by decide) (by decide) (by decide)

/-- C2. For every word the decoders return the field values of the spec: opcode, rs, rt, rd,
shamt and funct are shift-and-mask of the word, the immediate is the signed reading of the
low 16 bits (so that its conversion to 32 bits is the sign extension), and the jump target
is the low 26 bits. -/
theorem C2_decode_fields (w : Nat) :
    decode_opcode w = (w >>> 26) &&& 0x3F ∧
    decode_r_rs w = (w >>> 21) &&& 0x1F ∧
    decode_i_rs w = (w >>> 21) &&& 0x1F ∧
    decode_r_rt w = (w >>> 16) &&& 0x1F ∧
    decode_i_rt w = (w >>> 16) &&& 0x1F ∧
    decode_r_rd w = (w >>> 11) &&& 0x1F ∧
    decode_r_shamt w = (w >>> 6) &&& 0x1F ∧
    decode_r_funct w = w &&& 0x3F ∧
    decode_i_immediate w = signed16 (w &&& 0xFFFF) ∧
    u32 (decode_i_immediate w) = SE (w &&& 0xFFFF) ∧
    decode_j_target w = w &&& 0x03FFFFFF :=
  ⟨decode_opcode_eq w, decode_r_rs_eq w, decode_i_rs_eq w, decode_r_rt_eq w, decode_i_rt_eq w,
    decode_r_rd_eq w, decode_r_shamt_eq w, decode_r_funct_eq w, decode_i_immediate_eq w,
    u32_decode_i_immediate w, decode_j_target_eq w⟩

/-! ## Helper lemmas: the handlers -/

/-- A masked bit field in terms of division and remainder. -/
theorem and_mask_eq (x lo n : Nat) :
    x &&& (2 ^ lo * (2 ^ n - 1)) = 2 ^ lo * (x / 2 ^ lo % 2 ^ n) := by
  apply Nat.eq_of_testBit_eq
  intro i
  simp only [Nat.testBit_and, Nat.testBit_mul_pow_two, Nat.testBit_two_pow_sub_one,
    Nat.testBit_mod_two_pow, ← Nat.shiftRight_eq_div_pow, Nat.testBit_shiftRight]
  by_cases h : lo ≤ i
  · have : lo + (i - lo) = i := by omega
    simp [h, this, Bool.and_comm]
  · simp [h]

theorem pc_high_eq (pc : Nat) : pc &&& 0xF0000000 = 268435456 * (pc / 268435456 % 16) := by
  simpa using and_mask_eq pc 28 4

theorem target_field_eq (w : Nat) : w &&& 0x03FFFFFF = w % 67108864 := by
  simpa using Nat.and_pow_two_sub_one_eq_mod w 26

/-- The sum `handle_j` and `handle_jal` compute is the bitwise or of its two parts. -/
theorem jump_target_eq (pc w : Nat) :
    ((pc &&& MASK_PC_HIGH) + (decode_j_target w <<< 2) % 4294967296) % 4294967296
      = (pc &&& 0xF0000000) ||| (spec_target26 w <<< 2) := by
  rw [decode_j_target_eq]
  simp only [MASK_PC_HIGH, spec_target26, Nat.shiftLeft_eq, pc_high_eq, target_field_eq]
  have hb : w % 67108864 * 2 ^ 2 < 2 ^ 28 := by omega
  have := Nat.mul_add_lt_is_or hb (pc / 268435456 % 16)
  norm_num at this ⊢
  rw [← this]
  omega

/-- The jump target lies in the 256 MiB region of the current PC. -/
theorem jump_region (pc w : Nat) :
    ((pc &&& 0xF0000000) ||| (spec_target26 w <<< 2)) &&& 0xF0000000 = pc &&& 0xF0000000 := by
  simp only [spec_target26, Nat.shiftLeft_eq, pc_high_eq, target_field_eq]
  have hb : w % 67108864 * 2 ^ 2 < 2 ^ 28 := by omega
  have := Nat.mul_add_lt_is_or hb (pc / 268435456 % 16)
  norm_num at this ⊢
  rw [← this]
  omega

theorem branch_offset_eq (w : Nat) : branch_offset w = signed16 (w &&& 0xFFFF) * 4 := by
  have h := imm_field_lt w
  rw [branch_offset, decode_i_immediate_eq]
  simp only [shl_int, u32, i32, signed16]
  norm_num
  split_ifs <;> omega

/-- The taken-branch target of the source is `PC + (SE(imm16) << 2)` modulo 2^32. -/
theorem branch_target_eq (w : Nat) (m : Machine) :
    pc_plus_offset m (branch_offset w)
      = (m.CURRENT_STATE.PC + (spec_imm16 w <<< 2)) % 4294967296 := by
  have h := imm_field_lt w
  rw [branch_offset_eq]
  simp only [pc_plus_offset, u32, signed16, SE, spec_imm16, Nat.shiftLeft_eq]
  norm_num
  split_ifs <;> omega

/-- Every handler returns, DIV and DIVU with a zero divisor apart. -/
theorem call_total (h : Handler) (w : Nat) (m : Machine) (hz : ¬ divides_by_zero h w m) :
    ∃ m' st, h.call w m = some (m', st) := by
  cases h
  case DIV =>
    have h0 : m.CURRENT_STATE.REGS (decode_r_rt w) ≠ 0 := fun e => hz ⟨Or.inl rfl, e⟩
    simp [Handler.call, handle_div, h0]
  case DIVU =>
    have h0 : m.CURRENT_STATE.REGS (decode_r_rt w) ≠ 0 := fun e => hz ⟨Or.inr rfl, e⟩
    simp [Handler.call, handle_divu, h0]
  all_goals
    simp only [Handler.call, handle_j, handle_jal, handle_beq, handle_bne, handle_blez,
      handle_bgtz, handle_addi, handle_addiu, handle_slti, handle_sltiu, handle_andi,
      handle_ori, handle_xori, handle_lui, handle_lb, handle_lh, handle_lw, handle_lbu,
      handle_lhu, handle_sb, handle_sh, handle_sw, handle_sll, handle_srl, handle_sra,
      handle_sllv, handle_srlv, handle_srav, handle_jr, handle_jalr, handle_syscall,
      handle_mfhi, handle_mthi, handle_mflo, handle_mtlo, handle_mult, handle_multu,
      handle_div, handle_divu, handle_add, handle_addu, handle_sub, handle_subu, handle_and,
      handle_or, handle_xor, handle_nor, handle_slt, handle_sltu, handle_bltz, handle_bgez,
      handle_bltzal, handle_bgezal, handle_unrecognized_opcode, handle_unrecognized_function,
      handle_unrecognized_target]
    first
      | exact ⟨_, _, rfl⟩
      | (split <;> exact ⟨_, _, rfl⟩)

/-- A handler changes no general register of `NEXT_STATE` other than its destination. -/
theorem frame_regs (h : Handler) (w : Nat) (m m' : Machine) (st : Status) (r : Nat)
    (hc : h.call w m = some (m', st)) (hd : destination h w ≠ some r) :
    m'.NEXT_STATE.REGS r = m.NEXT_STATE.REGS r := by
  cases h <;>
    simp only [Handler.call, handle_j, handle_jal, handle_beq, handle_bne, handle_blez,
      handle_bgtz, handle_addi, handle_addiu, handle_slti, handle_sltiu, handle_andi,
      handle_ori, handle_xori, handle_lui, handle_lb, handle_lh, handle_lw, handle_lbu,
      handle_lhu, handle_sb, handle_sh, handle_sw, handle_sll, handle_srl, handle_sra,
      handle_sllv, handle_srlv, handle_srav, handle_jr, handle_jalr, handle_syscall,
      handle_mfhi, handle_mthi, handle_mflo, handle_mtlo, handle_mult, handle_multu,
      handle_div, handle_divu, handle_add, handle_addu, handle_sub, handle_subu, handle_and,
      handle_or, handle_xor, handle_nor, handle_slt, handle_sltu, handle_bltz, handle_bgez,
      handle_bltzal, handle_bgezal, handle_unrecognized_opcode, handle_unrecognized_function,
      handle_unrecognized_target,
      destination, ne_eq, Option.some.injEq, not_false_eq_true] at hc hd <;>
    (try split at hc) <;>
    simp only [Option.some.injEq, Prod.mk.injEq, reduceCtorEq] at hc <;>
    (try (obtain ⟨rfl, -⟩ := hc)) <;>
    simp [set_next_pc, set_next_reg, set_next_hi, set_next_lo, mem_write_32,
      Function.update, Ne.symm hd]

/-- The handlers that are neither jumps nor branches set the next PC to `PC + 4`. -/
theorem seq_pc_advance (h : Handler) (w : Nat) (m : Machine)
    (hj : h.is_jump = false) (hb : h.is_branch = false) (hu : h.is_unrecognized = false)
    (hz : ¬ divides_by_zero h w m) :
    ∃ m', h.call w m = some (m', Status.STATUS_OK) ∧
      m'.NEXT_STATE.PC = (m.CURRENT_STATE.PC + 4) % 4294967296 := by
  cases h
  case DIV =>
    have h0 : m.CURRENT_STATE.REGS (decode_r_rt w) ≠ 0 := fun e => hz ⟨Or.inl rfl, e⟩
    simp [Handler.call, handle_div, h0, set_next_pc, pc_plus_4]
  case DIVU =>
    have h0 : m.CURRENT_STATE.REGS (decode_r_rt w) ≠ 0 := fun e => hz ⟨Or.inr rfl, e⟩
    simp [Handler.call, handle_divu, h0, set_next_pc, pc_plus_4]
  all_goals
    first
      | (simp [Handler.is_jump] at hj; done)
      | (simp [Handler.is_branch] at hb; done)
      | (simp [Handler.is_unrecognized] at hu; done)
      | simp [Handler.call, handle_addi, handle_addiu, handle_slti, handle_sltiu, handle_andi,
          handle_ori, handle_xori, handle_lui, handle_lb, handle_lh, handle_lw, handle_lbu,
          handle_lhu, handle_sb, handle_sh, handle_sw, handle_sll, handle_srl, handle_sra,
          handle_sllv, handle_srlv, handle_srav, handle_syscall, handle_mfhi, handle_mthi,
          handle_mflo, handle_mtlo, handle_mult, handle_multu, handle_add, handle_addu,
          handle_sub, handle_subu, handle_and, handle_or, handle_xor, handle_nor, handle_slt,
          handle_sltu, set_next_pc, pc_plus_4]

/-- A branch handler whose condition is false sets the next PC to `PC + 4`. -/
theorem branch_not_taken (h : Handler) (w : Nat) (m : Machine)
    (hb : h.is_branch = true) (hc : branch_condition h w m = false) :
    ∃ m', h.call w m = some (m', Status.STATUS_OK) ∧
      m'.NEXT_STATE.PC = (m.CURRENT_STATE.PC + 4) % 4294967296 := by
  cases h <;> first
    | (simp [Handler.is_branch] at hb; done)
    | (simp only [branch_condition, decide_eq_false_iff_not] at hc
       simp [Handler.call, handle_beq, handle_bne, handle_blez, handle_bgtz, handle_bltz,
         handle_bgez, handle_bltzal, handle_bgezal, set_next_pc, set_next_reg, pc_plus_4, hc])

/-! ## Claims C3 to C10 -/

/-- C3, counterexample. From the scenario start state (register 0 holds 0 in both states) the
word 0x24000005 (ADDIU with rt = 0, rs = 0, imm = 5) is executed: `process_instruction`
leaves 5 in `NEXT_STATE.REGS[0]`, and after the commit register 0 reads 5. -/
theorem C3_zero_register_counterexample :
    (scenario [(0x00400000, 0x24000005)] []).CURRENT_STATE.REGS 0 = 0 ∧
    (scenario [(0x00400000, 0x24000005)] []).NEXT_STATE.REGS 0 = 0 ∧
    (process_instruction TABLES (scenario [(0x00400000, 0x24000005)] [])).map
      (fun m => m.NEXT_STATE.REGS 0) = some 5 ∧
    (step TABLES (scenario [(0x00400000, 0x24000005)] [])).map
      (fun m => m.CURRENT_STATE.REGS 0) = some 5 := by
  decide

/-- C3, amended. For every state in which register 0 holds 0 in both states, and every
fetched word that is all zero or whose handler has no destination register or a destination
other than register 0 (DIV and DIVU with a zero divisor left aside), one step followed by the
commit completes and register 0 still reads 0. -/
theorem C3_zero_register_amended (d : Dispatch) (m : Machine) (w : Nat)
    (hfetch : mem_read_32 m m.CURRENT_STATE.PC = w)
    (_hcur : m.CURRENT_STATE.REGS 0 = 0) (hnext : m.NEXT_STATE.REGS 0 = 0)
    (hdest : w = 0 ∨
      (destination (spec_handler w) w ≠ some 0 ∧ ¬ divides_by_zero (spec_handler w) w m)) :
    ∃ m', step (initialize_dispatch d) m = some m' ∧ m'.CURRENT_STATE.REGS 0 = 0 := by
  by_cases hw : w = 0
  · refine ⟨commit { m with RUN_BIT := 0 }, ?_, hnext⟩
    simp [step, process_instruction, hfetch, hw]
  · rcases hdest with h0 | ⟨hd, hz⟩
    · exact absurd h0 hw
    · obtain ⟨m', st, hc⟩ := call_total (spec_handler w) w m hz
      refine ⟨commit m', ?_, ?_⟩
      · simp [step, process_instruction_init d m w hfetch hw, hc]
      · have := frame_regs (spec_handler w) w m m' st 0 hc hd
        simpa [commit, hnext] using this

/-- Witness of the amended C3: the word 0x24020005 (ADDIU r2, r0, 5), destination r2. -/
theorem C3_zero_register_amended_witness :
    ∃ m', step (initialize_dispatch ⟨[], [], []⟩) (scenario [(0x00400000, 0x24020005)] [])
        = some m' ∧ m'.CURRENT_STATE.REGS 0 = 0 :=
  C3_zero_register_amended ⟨[], [], []⟩ (scenario [(0x00400000, 0x24020005)] []) 0x24020005
    (by decide) (by decide) (by decide) (by decide)

/-- C4. Every handler that is neither a jump nor a branch returns `STATUS_OK` with
`NEXT_STATE.PC = CURRENT_STATE.PC + 4` modulo 2^32, DIV and DIVU only when the divisor
register is not zero; every branch handler whose condition evaluates false does the same.
With a zero divisor `handle_div` and `handle_divu` have no result: the words 0x0020001A
(DIV r1, r0) and 0x0020001B (DIVU r1, r0) with R[1] = 7 never reach the PC assignment. -/
theorem C4_pc_advance :
    (∀ (h : Handler) (w : Nat) (m : Machine), h.is_jump = false → h.is_branch = false →
        h.is_unrecognized = false → ¬ divides_by_zero h w m →
        ∃ m', h.call w m = some (m', Status.STATUS_OK) ∧
          m'.NEXT_STATE.PC = (m.CURRENT_STATE.PC + 4) % 4294967296) ∧
    (∀ (h : Handler) (w : Nat) (m : Machine), h.is_branch = true →
        branch_condition h w m = false →
        ∃ m', h.call w m = some (m', Status.STATUS_OK) ∧
          m'.NEXT_STATE.PC = (m.CURRENT_STATE.PC + 4) % 4294967296) ∧
    handle_div 0x0020001A (scenario [(0x00400000, 0x0020001A)] [(1, 7)]) = none ∧
    handle_divu 0x0020001B (scenario [(0x00400000, 0x0020001B)] [(1, 7)]) = none :=
  ⟨seq_pc_advance, branch_not_taken, rfl, rfl⟩

/-- Witness of C4: ADDIU r2, r0, 5 advances the PC of the scenario start state, and BNE
r1, r2 with R[1] = R[2] = 7 (condition false) does too. -/
theorem C4_pc_advance_witness :
    (∃ m', Handler.ADDIU.call 0x24020005 (scenario [(0x00400000, 0x24020005)] [])
        = some (m', Status.STATUS_OK) ∧ m'.NEXT_STATE.PC = (0x00400000 + 4) % 4294967296) ∧
    (∃ m', Handler.BNE.call 0x14220002 (scenario [(0x00400000, 0x14220002)] [(1, 7), (2, 7)])
        = some (m', Status.STATUS_OK) ∧ m'.NEXT_STATE.PC = (0x00400000 + 4) % 4294967296) :=
  ⟨C4_pc_advance.1 Handler.ADDIU 0x24020005 (scenario [(0x00400000, 0x24020005)] [])
      (by decide) (by decide) (by decide) (by decide),
   C4_pc_advance.2.1 Handler.BNE 0x14220002
      (scenario [(0x00400000, 0x14220002)] [(1, 7), (2, 7)]) (by decide) (by decide)⟩

/-- C5. A non-zero word that selects an unassigned slot makes `process_instruction` read the
default handler of the consulted table; that handler returns `STATUS_ERR` together with the
unchanged machine (both states, memory and run flag), which is what `process_instruction`
returns as well. -/
theorem C5_unrecognised_encoding (d : Dispatch) (m : Machine) (w : Nat)
    (hfetch : mem_read_32 m m.CURRENT_STATE.PC = w) (hw : w ≠ 0)
    (hun : spec_assignment w = none) :
    dispatch_slot (initialize_dispatch d) w = some (some (spec_default w)) ∧
    (spec_default w).call w m = some (m, Status.STATUS_ERR) ∧
    process_instruction (initialize_dispatch d) m = some m := by
  have hs : spec_handler w = spec_default w := by simp [spec_handler, hun]
  have hc : (spec_default w).call w m = some (m, Status.STATUS_ERR) := by
    unfold spec_default
    split_ifs <;> rfl
  refine ⟨hs ▸ dispatch_slot_init d w, hc, ?_⟩
  rw [process_instruction_init d m w hfetch hw, hs, hc]
  rfl

/-- Witness of C5: the word 0xFC000000 (opcode 63, unassigned). -/
theorem C5_unrecognised_encoding_witness :
    dispatch_slot (initialize_dispatch ⟨[], [], []⟩) 0xFC000000
      = some (some (spec_default 0xFC000000)) ∧
    (spec_default 0xFC000000).call 0xFC000000 (scenario [(0x00400000, 0xFC000000)] [])
      = some (scenario [(0x00400000, 0xFC000000)] [], Status.STATUS_ERR) ∧
    process_instruction (initialize_dispatch ⟨[], [], []⟩)
      (scenario [(0x00400000, 0xFC000000)] []) = some (scenario [(0x00400000, 0xFC000000)] []) :=
  C5_unrecognised_encoding ⟨[], [], []⟩ (scenario [(0x00400000, 0xFC000000)] []) 0xFC000000
    (by decide) (by decide) (by decide)

/-- C6. When the word read at `CURRENT_STATE.PC` is 0, `process_instruction` returns with the
run flag cleared and `NEXT_STATE`, `CURRENT_STATE` and memory unchanged; no handler is
invoked: the result is the same whatever the tables hold, also with empty tables, where a
call through a slot would have no result. -/
theorem C6_zero_fetch (d : Dispatch) (m : Machine)
    (h0 : mem_read_32 m m.CURRENT_STATE.PC = 0) :
    ∃ m', process_instruction d m = some m' ∧ m'.RUN_BIT = 0 ∧
      m'.NEXT_STATE = m.NEXT_STATE ∧ m'.CURRENT_STATE = m.CURRENT_STATE ∧ m'.MEM = m.MEM ∧
      process_instruction ⟨[], [], []⟩ m = some m' :=
  ⟨{ m with RUN_BIT := 0 }, by simp [process_instruction, h0], rfl, rfl, rfl, rfl,
    by simp [process_instruction, h0]⟩

/-- Witness of C6: the scenario start state over a zero memory. -/
theorem C6_zero_fetch_witness :
    ∃ m', process_instruction TABLES (scenario [] []) = some m' ∧ m'.RUN_BIT = 0 ∧
      m'.NEXT_STATE = (scenario [] []).NEXT_STATE ∧
      m'.CURRENT_STATE = (scenario [] []).CURRENT_STATE ∧ m'.MEM = (scenario [] []).MEM ∧
      process_instruction ⟨[], [], []⟩ (scenario [] []) = some m' :=
  C6_zero_fetch TABLES (scenario [] []) (by decide)

/-- C7. For every PC and word, `handle_j` and `handle_jal` return `STATUS_OK` with
`NEXT_STATE.PC = (CURRENT_STATE.PC & 0xF0000000) | (target26 << 2)`, and the high nibble of
that PC is the high nibble of the current PC. -/
theorem C7_jump_target (w : Nat) (m : Machine) :
    ∃ m1 m2, handle_j w m = some (m1, Status.STATUS_OK) ∧
      handle_jal w m = some (m2, Status.STATUS_OK) ∧
      m1.NEXT_STATE.PC = (m.CURRENT_STATE.PC &&& 0xF0000000) ||| (spec_target26 w <<< 2) ∧
      m2.NEXT_STATE.PC = (m.CURRENT_STATE.PC &&& 0xF0000000) ||| (spec_target26 w <<< 2) ∧
      m1.NEXT_STATE.PC &&& 0xF0000000 = m.CURRENT_STATE.PC &&& 0xF0000000 ∧
      m2.NEXT_STATE.PC &&& 0xF0000000 = m.CURRENT_STATE.PC &&& 0xF0000000 := by
  refine ⟨_, _, rfl, rfl, ?_, ?_, ?_, ?_⟩
  · exact jump_target_eq m.CURRENT_STATE.PC w
  · exact jump_target_eq m.CURRENT_STATE.PC w
  · show ((m.CURRENT_STATE.PC &&& MASK_PC_HIGH) + (decode_j_target w <<< 2) % 4294967296)
      % 4294967296 &&& 0xF0000000 = _
    rw [jump_target_eq, jump_region]
  · show ((m.CURRENT_STATE.PC &&& MASK_PC_HIGH) + (decode_j_target w <<< 2) % 4294967296)
      % 4294967296 &&& 0xF0000000 = _
    rw [jump_target_eq, jump_region]

/-- C8. For every state and word, JAL, BLTZAL and BGEZAL return with
`NEXT_STATE.REGS[31] = CURRENT_STATE.PC + 4` and JALR with
`NEXT_STATE.REGS[rd] = CURRENT_STATE.PC + 4` (modulo 2^32), whatever the registers hold, so
whether or not the branch is taken. -/
theorem C8_link_register (w : Nat) (m : Machine) :
    (∃ m', handle_jal w m = some (m', Status.STATUS_OK) ∧
      m'.NEXT_STATE.REGS 31 = (m.CURRENT_STATE.PC + 4) % 4294967296) ∧
    (∃ m', handle_bltzal w m = some (m', Status.STATUS_OK) ∧
      m'.NEXT_STATE.REGS 31 = (m.CURRENT_STATE.PC + 4) % 4294967296) ∧
    (∃ m', handle_bgezal w m = some (m', Status.STATUS_OK) ∧
      m'.NEXT_STATE.REGS 31 = (m.CURRENT_STATE.PC + 4) % 4294967296) ∧
    (∃ m', handle_jalr w m = some (m', Status.STATUS_OK) ∧
      m'.NEXT_STATE.REGS (spec_rd w) = (m.CURRENT_STATE.PC + 4) % 4294967296) := by
  refine ⟨?_, ?_, ?_, ?_⟩
  · simp [handle_jal, set_next_reg, set_next_pc, pc_plus_4, REG_LINK]
  · simp [handle_bltzal, set_next_reg, set_next_pc, pc_plus_4, REG_LINK]
  · simp [handle_bgezal, set_next_reg, set_next_pc, pc_plus_4, REG_LINK]
  · simp [handle_jalr, set_next_reg, set_next_pc, pc_plus_4, decode_r_rd_eq]

/-- C9. For every state and word, `handle_jr` and `handle_jalr` return with
`NEXT_STATE.PC` equal to the value `CURRENT_STATE.REGS[rs]` had before the step, also when
`rd = rs` (the word 0x01405009, JALR with rs = rd = 10). Scenario S3: JAL at 0x00400000 to
0x00400010 gives PC = 0x00400010 and R[31] = 0x00400004 after the commit, and the JR r31
fetched there gives PC = 0x00400004. -/
theorem C9_jump_register (w : Nat) (m : Machine) :
    (∃ m', handle_jr w m = some (m', Status.STATUS_OK) ∧
      m'.NEXT_STATE.PC = m.CURRENT_STATE.REGS (spec_rs w)) ∧
    (∃ m', handle_jalr w m = some (m', Status.STATUS_OK) ∧
      m'.NEXT_STATE.PC = m.CURRENT_STATE.REGS (spec_rs w)) ∧
    (spec_rs 0x01405009 = spec_rd 0x01405009 ∧
      (handle_jalr 0x01405009 (scenario [] [(10, 0x00401000)])).map
        (fun r => (r.1.NEXT_STATE.PC, r.1.NEXT_STATE.REGS 10)) = some (0x00401000, 0x00400004)) ∧
    (step TABLES (scenario [(0x00400000, 0x0C100004), (0x00400010, 0x03E00008)] [])).map
      (fun m1 => (m1.CURRENT_STATE.PC, m1.CURRENT_STATE.REGS 31))
      = some (0x00400010, 0x00400004) ∧
    ((step TABLES (scenario [(0x00400000, 0x0C100004), (0x00400010, 0x03E00008)] [])).bind
      (step TABLES)).map (fun m2 => m2.CURRENT_STATE.PC) = some 0x00400004 := by
  refine ⟨?_, ?_, by decide, by decide, by decide⟩
  · simp [handle_jr, set_next_pc, decode_r_rs_eq]
  · simp [handle_jalr, set_next_reg, set_next_pc, decode_r_rs_eq]

/-- C10. For every state and word, `handle_beq` returns with `NEXT_STATE.PC` equal to
`PC + (SE(imm16) << 2)` modulo 2^32 when `R[rs] = R[rt]` and to `PC + 4` otherwise, and
`handle_bne` does the same under the condition `R[rs] ≠ R[rt]`. Scenario S2: with
R[1] = R[2] = 7 the word 0x10220002 steps the PC from 0x00400000 to 0x00400008. -/
theorem C10_beq_bne (w : Nat) (m : Machine) :
    (∃ m', handle_beq w m = some (m', Status.STATUS_OK) ∧
      m'.NEXT_STATE.PC =
        if m.CURRENT_STATE.REGS (spec_rs w) = m.CURRENT_STATE.REGS (spec_rt w)
        then (m.CURRENT_STATE.PC + (spec_imm16 w <<< 2)) % 4294967296
        else (m.CURRENT_STATE.PC + 4) % 4294967296) ∧
    (∃ m', handle_bne w m = some (m', Status.STATUS_OK) ∧
      m'.NEXT_STATE.PC =
        if m.CURRENT_STATE.REGS (spec_rs w) ≠ m.CURRENT_STATE.REGS (spec_rt w)
        then (m.CURRENT_STATE.PC + (spec_imm16 w <<< 2)) % 4294967296
        else (m.CURRENT_STATE.PC + 4) % 4294967296) ∧
    (step TABLES (scenario [(0x00400000, 0x10220002)] [(1, 7), (2, 7)])).map
      (fun m' => m'.CURRENT_STATE.PC) = some 0x00400008 := by
  refine ⟨?_, ?_, by decide⟩
  · simp only [handle_beq, decode_i_rs_eq, decode_i_rt_eq, branch_target_eq, pc_plus_4]
    split <;> simp [set_next_pc, *]
  · simp only [handle_bne, decode_i_rs_eq, decode_i_rt_eq, branch_target_eq, pc_plus_4]
    split <;> simp [set_next_pc, *]

/-! ## Helper lemmas: immediates, multiply, divide and stores -/

/-- The register value both add-immediate handlers store, and the effective address. -/
theorem add_imm_eq (r w : Nat) :
    u32 ((r : Int) + decode_i_immediate w) = (r + spec_imm16 w) % 4294967296 := by
  have h := imm_field_lt w
  rw [decode_i_immediate_eq]
  simp only [u32, signed16, spec_imm16, SE]
  split_ifs <;> omega

theorem effective_address_eq (m : Machine) (w : Nat) :
    effective_address m w
      = (m.CURRENT_STATE.REGS (spec_rs w) + spec_imm16 w) % 4294967296 := by
  rw [effective_address, add_imm_eq, decode_i_rs_eq]

theorem spec_imm16_congr (s l : Nat) (h : l &&& 0xFFFF = s &&& 0xFFFF) :
    spec_imm16 l = spec_imm16 s := by
  simp [spec_imm16, h]

theorem next_hi_after (m : Machine) (x y z : Nat) :
    (set_next_pc (set_next_lo (set_next_hi m x) y) z).NEXT_STATE.HI = x := rfl

theorem next_lo_after (m : Machine) (x y z : Nat) :
    (set_next_pc (set_next_lo (set_next_hi m x) y) z).NEXT_STATE.LO = y := rfl

/-- The two halves `handle_multu` stores make up the product of two 32-bit values. -/
theorem multu_halves (a b : Nat) (ha : a < 4294967296) (hb : b < 4294967296) :
    ((((a * b) % 18446744073709551616) >>> 32) &&& 0xFFFFFFFF) % 4294967296 * 4294967296
      + ((((a * b) % 18446744073709551616) >>> 0) &&& 0xFFFFFFFF) % 4294967296 = a * b := by
  have hp : a * b < 4294967296 * 4294967296 := Nat.mul_lt_mul'' ha hb
  have e : ∀ x : Nat, x &&& 0xFFFFFFFF = x % 4294967296 := fun x => by
    simpa using Nat.and_pow_two_sub_one_eq_mod x 32
  simp only [e, Nat.shiftRight_eq_div_pow, Nat.shiftRight_zero]
  generalize a * b = p at hp ⊢
  norm_num
  omega

theorem handle_mult_eq (w : Nat) (m : Machine) :
    handle_mult w m = some (set_next_pc (set_next_lo (set_next_hi m
      (u32 ((wrap_i64 ((m.CURRENT_STATE.REGS (decode_r_rs w) : Int)
        * (m.CURRENT_STATE.REGS (decode_r_rt w) : Int)) / 4294967296) % 4294967296)))
      (u32 (wrap_i64 ((m.CURRENT_STATE.REGS (decode_r_rs w) : Int)
        * (m.CURRENT_STATE.REGS (decode_r_rt w) : Int)) % 4294967296)))
      (pc_plus_4 m), Status.STATUS_OK) := rfl

theorem mult_halves_nat (p : Nat) (hp : p < 18446744073709551616) :
    (u32 ((wrap_i64 (p : Int) / 4294967296) % 4294967296) : Nat) * 4294967296
      + u32 (wrap_i64 (p : Int) % 4294967296) = p := by
  simp only [u32, wrap_i64]
  omega

/-- The two halves `handle_mult` stores make up the unsigned product. -/
theorem mult_halves (a b : Nat) (ha : a < 4294967296) (hb : b < 4294967296) :
    (u32 ((wrap_i64 ((a : Int) * (b : Int)) / 4294967296) % 4294967296) : Nat) * 4294967296
      + u32 (wrap_i64 ((a : Int) * (b : Int)) % 4294967296) = a * b := by
  have hp := Nat.mul_lt_mul'' ha hb
  norm_num at hp
  rw [← Int.natCast_mul]
  exact mult_halves_nat (a * b) hp

theorem handle_div_eq (w : Nat) (m : Machine)
    (h : m.CURRENT_STATE.REGS (decode_r_rt w) ≠ 0) :
    handle_div w m = some (set_next_pc (set_next_lo (set_next_hi m
      (u32 ((wrap_i64 (Int.tdiv (m.CURRENT_STATE.REGS (decode_r_rs w) : Int)
        (m.CURRENT_STATE.REGS (decode_r_rt w) : Int)) / 4294967296) % 4294967296)))
      (u32 (wrap_i64 (Int.tdiv (m.CURRENT_STATE.REGS (decode_r_rs w) : Int)
        (m.CURRENT_STATE.REGS (decode_r_rt w) : Int)) % 4294967296)))
      (pc_plus_4 m), Status.STATUS_OK) := by
  have h' : ¬ ((m.CURRENT_STATE.REGS (decode_r_rt w) : Int) = 0) := by exact_mod_cast h
  unfold handle_div
  exact if_neg h'

theorem handle_divu_eq (w : Nat) (m : Machine)
    (h : m.CURRENT_STATE.REGS (decode_r_rt w) ≠ 0) :
    handle_divu w m = some (set_next_pc (set_next_lo (set_next_hi m
      (((((m.CURRENT_STATE.REGS (decode_r_rs w) / m.CURRENT_STATE.REGS (decode_r_rt w))
        % 18446744073709551616) >>> 32) &&& 0xFFFFFFFF) % 4294967296))
      (((((m.CURRENT_STATE.REGS (decode_r_rs w) / m.CURRENT_STATE.REGS (decode_r_rt w))
        % 18446744073709551616) >>> 0) &&& 0xFFFFFFFF) % 4294967296))
      (pc_plus_4 m), Status.STATUS_OK) := by
  unfold handle_divu
  exact if_neg h

/-- The halves `handle_div` stores for a quotient below 2^32: HI is 0, LO the quotient. -/
theorem div_halves (q : Nat) (hq : q < 4294967296) :
    u32 ((wrap_i64 (q : Int) / 4294967296) % 4294967296) = 0 ∧
    u32 (wrap_i64 (q : Int) % 4294967296) = q := by
  simp only [u32, wrap_i64]
  omega

/-- The halves `handle_divu` stores for a quotient below 2^32: HI is 0, LO the quotient. -/
theorem divu_halves (q : Nat) (hq : q < 4294967296) :
    (((q % 18446744073709551616) >>> 32) &&& 0xFFFFFFFF) % 4294967296 = 0 ∧
    (((q % 18446744073709551616) >>> 0) &&& 0xFFFFFFFF) % 4294967296 = q := by
  have e : ∀ x : Nat, x &&& 0xFFFFFFFF = x % 4294967296 := fun x => by
    simpa using Nat.and_pow_two_sub_one_eq_mod x 32
  simp only [e, Nat.shiftRight_eq_div_pow, Nat.shiftRight_zero]
  norm_num
  omega

/-- With a non-zero divisor both divide handlers store the unsigned quotient in LO and 0
in HI. -/
theorem div_stores_quotient (w : Nat) (m : Machine)
    (hrs : m.CURRENT_STATE.REGS (spec_rs w) < 4294967296)
    (hrt : m.CURRENT_STATE.REGS (spec_rt w) ≠ 0) :
    result_hi_lo (handle_div w m)
      = some (0, m.CURRENT_STATE.REGS (spec_rs w) / m.CURRENT_STATE.REGS (spec_rt w)) ∧
    result_hi_lo (handle_divu w m)
      = some (0, m.CURRENT_STATE.REGS (spec_rs w) / m.CURRENT_STATE.REGS (spec_rt w)) := by
  rw [← decode_r_rs_eq] at hrs
  rw [← decode_r_rt_eq] at hrt
  have hq : m.CURRENT_STATE.REGS (decode_r_rs w) / m.CURRENT_STATE.REGS (decode_r_rt w)
      < 4294967296 := Nat.lt_of_le_of_lt (Nat.div_le_self _ _) hrs
  rw [handle_div_eq w m hrt, handle_divu_eq w m hrt, ← decode_r_rs_eq, ← decode_r_rt_eq]
  simp only [result_hi_lo, Option.map_some', next_hi_after, next_lo_after, ← Int.ofNat_tdiv]
  rw [(div_halves _ hq).1, (div_halves _ hq).2, (divu_halves _ hq).1, (divu_halves _ hq).2]
  exact ⟨rfl, rfl⟩

/-- The word `handle_sb` stores: the two masked operands of its `&` share no bit. -/
theorem and_low_high_byte (a b : Nat) : (a &&& 0xFFFFFF00) &&& (b &&& 0x000000FF) = 0 := by
  apply Nat.eq_of_testBit_eq
  intro i
  have h1 : (0xFFFFFF00 : Nat) = 2 ^ 8 * (2 ^ 24 - 1) := by norm_num
  have h2 : (0x000000FF : Nat) = 2 ^ 8 - 1 := by norm_num
  rw [h1, h2]
  simp only [Nat.testBit_and, Nat.testBit_mul_pow_two, Nat.testBit_two_pow_sub_one,
    Nat.zero_testBit]
  by_cases h : 8 ≤ i
  · have : ¬ i < 8 := by omega
    simp [this]
  · simp [h]

/-- The word `handle_sh` stores: the two masked operands of its `&` share no bit. -/
theorem and_low_high_half (a b : Nat) : (a &&& 0xFFFF0000) &&& (b &&& 0x0000FFFF) = 0 := by
  apply Nat.eq_of_testBit_eq
  intro i
  have h1 : (0xFFFF0000 : Nat) = 2 ^ 16 * (2 ^ 16 - 1) := by norm_num
  have h2 : (0x0000FFFF : Nat) = 2 ^ 16 - 1 := by norm_num
  rw [h1, h2]
  simp only [Nat.testBit_and, Nat.testBit_mul_pow_two, Nat.testBit_two_pow_sub_one,
    Nat.zero_testBit]
  by_cases h : 16 ≤ i
  · have : ¬ i < 16 := by omega
    simp [this]
  · simp [h]

/-! ## Claims C11 to C20 -/

/-- C11. The compare-with-zero branches evaluated on R[1] = 0x80000000, negative as a signed
value, with branch offset +2 words from PC 0x00400000. A signed comparison selects the target
0x00400008 for BLEZ, BLTZ and BLTZAL and PC + 4 for BGTZ, BGEZ and BGEZAL; the handlers,
which compare the unsigned register with 0, select the opposite in all six cases. -/
theorem C11_compare_with_zero :
    signed32 0x80000000 < 0 ∧
    result_pc (handle_blez 0x18200002 (scenario [] [(1, 0x80000000)])) = some 0x00400004 ∧
    spec_branch_pc (decide (signed32 0x80000000 ≤ 0)) 0x00400000 0x18200002 = 0x00400008 ∧
    result_pc (handle_bgtz 0x1C200002 (scenario [] [(1, 0x80000000)])) = some 0x00400008 ∧
    spec_branch_pc (decide (signed32 0x80000000 > 0)) 0x00400000 0x1C200002 = 0x00400004 ∧
    result_pc (handle_bltz 0x04200002 (scenario [] [(1, 0x80000000)])) = some 0x00400004 ∧
    result_pc (handle_bltzal 0x04300002 (scenario [] [(1, 0x80000000)])) = some 0x00400004 ∧
    spec_branch_pc (decide (signed32 0x80000000 < 0)) 0x00400000 0x04200002 = 0x00400008 ∧
    spec_branch_pc (decide (signed32 0x80000000 < 0)) 0x00400000 0x04300002 = 0x00400008 ∧
    result_pc (handle_bgez 0x04210002 (scenario [] [(1, 0x80000000)])) = some 0x00400008 ∧
    result_pc (handle_bgezal 0x04310002 (scenario [] [(1, 0x80000000)])) = some 0x00400008 ∧
    spec_branch_pc (decide (signed32 0x80000000 ≥ 0)) 0x00400000 0x04210002 = 0x00400004 ∧
    spec_branch_pc (decide (signed32 0x80000000 ≥ 0)) 0x00400000 0x04310002 = 0x00400004 := by
  decide

/-- C12. For every state and word, `handle_addi` and `handle_addiu` return the same machine
with `STATUS_OK`, and in it `NEXT_STATE.REGS[rt] = (R[rs] + SE(imm16)) mod 2^32`. -/
theorem C12_addi_addiu (w : Nat) (m : Machine) :
    ∃ m', handle_addi w m = some (m', Status.STATUS_OK) ∧
      handle_addiu w m = some (m', Status.STATUS_OK) ∧
      m'.NEXT_STATE.REGS (spec_rt w)
        = (m.CURRENT_STATE.REGS (spec_rs w) + spec_imm16 w) % 4294967296 := by
  refine ⟨_, rfl, rfl, ?_⟩
  simp [set_next_pc, set_next_reg, add_imm_eq, decode_i_rs_eq, decode_i_rt_eq]

/-- C13. For every state and word, ANDI, ORI and XORI combine `R[rs]` with the sign extension
`SE(imm16)`, not with the zero extension. With the immediate 0x8000 (bit 15 set) the operand
is 0xFFFF8000: ANDI on R[1] = 0xFFFFFFFF, ORI on R[1] = 0 and XORI on R[1] = 0 all store
0xFFFF8000, where the zero-extended immediate gives 0x00008000. -/
theorem C13_logical_immediates :
    (∀ (w : Nat) (m : Machine),
      result_reg (handle_andi w m) (spec_rt w)
        = some (m.CURRENT_STATE.REGS (spec_rs w) &&& spec_imm16 w) ∧
      result_reg (handle_ori w m) (spec_rt w)
        = some (m.CURRENT_STATE.REGS (spec_rs w) ||| spec_imm16 w) ∧
      result_reg (handle_xori w m) (spec_rt w)
        = some (m.CURRENT_STATE.REGS (spec_rs w) ^^^ spec_imm16 w)) ∧
    spec_imm16 0x30228000 = 0xFFFF8000 ∧ ZE 0x8000 = 0x00008000 ∧
    result_reg (handle_andi 0x30228000 (scenario [] [(1, 0xFFFFFFFF)])) 2 = some 0xFFFF8000 ∧
    0xFFFFFFFF &&& ZE 0x8000 = 0x00008000 ∧
    result_reg (handle_ori 0x34228000 (scenario [] [(1, 0)])) 2 = some 0xFFFF8000 ∧
    0 ||| ZE 0x8000 = 0x00008000 ∧
    result_reg (handle_xori 0x38228000 (scenario [] [(1, 0)])) 2 = some 0xFFFF8000 ∧
    0 ^^^ ZE 0x8000 = 0x00008000 := by
  refine ⟨fun w m => ⟨?_, ?_, ?_⟩, by decide, by decide, by decide, by decide, by decide,
    by decide, by decide, by decide⟩
  · simp [result_reg, handle_andi, set_next_pc, set_next_reg, decode_i_rt_eq, decode_i_rs_eq,
      u32_decode_i_immediate, spec_imm16]
  · simp [result_reg, handle_ori, set_next_pc, set_next_reg, decode_i_rt_eq, decode_i_rs_eq,
      u32_decode_i_immediate, spec_imm16]
  · simp [result_reg, handle_xori, set_next_pc, set_next_reg, decode_i_rt_eq, decode_i_rs_eq,
      u32_decode_i_immediate, spec_imm16]

/-- C14. For 32-bit register values `handle_mult` stores the unsigned product:
`HI * 2^32 + LO = R[rs] * R[rt]`. With R[1] = 0xFFFFFFFF and R[2] = 2 (MULT r1, r2, word
0x00220018) it leaves HI = 1 and LO = 0xFFFFFFFE, where the signed product (-1) * 2 has the
high word 0xFFFFFFFF. -/
theorem C14_mult_unsigned :
    (∀ (w : Nat) (m : Machine), m.CURRENT_STATE.REGS (spec_rs w) < 4294967296 →
      m.CURRENT_STATE.REGS (spec_rt w) < 4294967296 →
      ∃ m', handle_mult w m = some (m', Status.STATUS_OK) ∧
        m'.NEXT_STATE.HI * 4294967296 + m'.NEXT_STATE.LO
          = m.CURRENT_STATE.REGS (spec_rs w) * m.CURRENT_STATE.REGS (spec_rt w)) ∧
    result_hi_lo (handle_mult 0x00220018 (scenario [] [(1, 0xFFFFFFFF), (2, 2)]))
      = some (0x00000001, 0xFFFFFFFE) ∧
    high32 (signed32 0xFFFFFFFF * signed32 2) = 0xFFFFFFFF ∧
    low32 (signed32 0xFFFFFFFF * signed32 2) = 0xFFFFFFFE := by
  refine ⟨fun w m hrs hrt => ?_, by decide, by decide, by decide⟩
  refine ⟨_, handle_mult_eq w m, ?_⟩
  rw [next_hi_after, next_lo_after, decode_r_rs_eq, decode_r_rt_eq]
  exact mult_halves _ _ hrs hrt

/-- Witness of C14: MULT r1, r2 with R[1] = 0xFFFFFFFF and R[2] = 2. -/
theorem C14_mult_unsigned_witness :
    ∃ m', handle_mult 0x00220018 (scenario [] [(1, 0xFFFFFFFF), (2, 2)])
        = some (m', Status.STATUS_OK) ∧
      m'.NEXT_STATE.HI * 4294967296 + m'.NEXT_STATE.LO
        = (scenario [] [(1, 0xFFFFFFFF), (2, 2)]).CURRENT_STATE.REGS (spec_rs 0x00220018)
          * (scenario [] [(1, 0xFFFFFFFF), (2, 2)]).CURRENT_STATE.REGS (spec_rt 0x00220018) :=
  C14_mult_unsigned.1 0x00220018 (scenario [] [(1, 0xFFFFFFFF), (2, 2)]) (by decide)
    (by decide)

/-- C15. For every pair of 32-bit register values `handle_multu` returns `STATUS_OK` with
`HI * 2^32 + LO = R[rs] * R[rt]`, both halves below 2^32: the full 64-bit product. -/
theorem C15_multu (w : Nat) (m : Machine)
    (hrs : m.CURRENT_STATE.REGS (spec_rs w) < 4294967296)
    (hrt : m.CURRENT_STATE.REGS (spec_rt w) < 4294967296) :
    ∃ m', handle_multu w m = some (m', Status.STATUS_OK) ∧
      m'.NEXT_STATE.HI * 4294967296 + m'.NEXT_STATE.LO
        = m.CURRENT_STATE.REGS (spec_rs w) * m.CURRENT_STATE.REGS (spec_rt w) ∧
      m'.NEXT_STATE.HI < 4294967296 ∧ m'.NEXT_STATE.LO < 4294967296 := by
  simp only [handle_multu, set_next_pc, set_next_hi, set_next_lo, decode_r_rs_eq,
    decode_r_rt_eq]
  exact ⟨_, rfl, multu_halves _ _ hrs hrt, Nat.mod_lt _ (by norm_num),
    Nat.mod_lt _ (by norm_num)⟩

/-- Witness of C15: MULTU r1, r2 (word 0x00220019) with R[1] = R[2] = 0xFFFFFFFF. -/
theorem C15_multu_witness :
    ∃ m', handle_multu 0x00220019 (scenario [] [(1, 0xFFFFFFFF), (2, 0xFFFFFFFF)])
        = some (m', Status.STATUS_OK) ∧
      m'.NEXT_STATE.HI * 4294967296 + m'.NEXT_STATE.LO
        = (scenario [] [(1, 0xFFFFFFFF), (2, 0xFFFFFFFF)]).CURRENT_STATE.REGS (spec_rs 0x00220019)
          * (scenario [] [(1, 0xFFFFFFFF), (2, 0xFFFFFFFF)]).CURRENT_STATE.REGS
              (spec_rt 0x00220019) ∧
      m'.NEXT_STATE.HI < 4294967296 ∧ m'.NEXT_STATE.LO < 4294967296 :=
  C15_multu 0x00220019 (scenario [] [(1, 0xFFFFFFFF), (2, 0xFFFFFFFF)]) (by decide) (by decide)

/-- C16. With a non-zero divisor and a 32-bit dividend, `handle_div` and `handle_divu` both
store 0 in HI and the unsigned quotient `R[rs] / R[rt]` in LO. DIVU r1, r2 with R[1] = 7 and
R[2] = 2 leaves HI = 0, where the remainder is 1; DIV r1, r2 with R[1] = 0xFFFFFFF9 (-7) and
R[2] = 2 leaves LO = 0x7FFFFFFC and HI = 0, where the signed quotient is 0xFFFFFFFD (-3) and
the signed remainder 0xFFFFFFFF (-1). -/
theorem C16_div_divu :
    (∀ (w : Nat) (m : Machine), m.CURRENT_STATE.REGS (spec_rs w) < 4294967296 →
      m.CURRENT_STATE.REGS (spec_rt w) ≠ 0 →
      result_hi_lo (handle_div w m)
        = some (0, m.CURRENT_STATE.REGS (spec_rs w) / m.CURRENT_STATE.REGS (spec_rt w)) ∧
      result_hi_lo (handle_divu w m)
        = some (0, m.CURRENT_STATE.REGS (spec_rs w) / m.CURRENT_STATE.REGS (spec_rt w))) ∧
    result_hi_lo (handle_divu 0x0022001B (scenario [] [(1, 7), (2, 2)])) = some (0, 3) ∧
    (7 / 2, 7 % 2) = (3, 1) ∧
    result_hi_lo (handle_div 0x0022001A (scenario [] [(1, 0xFFFFFFF9), (2, 2)]))
      = some (0, 0x7FFFFFFC) ∧
    signed32 0xFFFFFFF9 = -7 ∧
    low32 (Int.tdiv (signed32 0xFFFFFFF9) (signed32 2)) = 0xFFFFFFFD ∧
    low32 (Int.tmod (signed32 0xFFFFFFF9) (signed32 2)) = 0xFFFFFFFF :=
  ⟨div_stores_quotient, by decide, by decide, by decide, by decide, by decide, by decide⟩

/-- Witness of C16: DIVU r1, r2 with R[1] = 7 and R[2] = 2. -/
theorem C16_div_divu_witness :
    result_hi_lo (handle_div 0x0022001B (scenario [] [(1, 7), (2, 2)]))
      = some (0, (scenario [] [(1, 7), (2, 2)]).CURRENT_STATE.REGS (spec_rs 0x0022001B)
          / (scenario [] [(1, 7), (2, 2)]).CURRENT_STATE.REGS (spec_rt 0x0022001B)) ∧
    result_hi_lo (handle_divu 0x0022001B (scenario [] [(1, 7), (2, 2)]))
      = some (0, (scenario [] [(1, 7), (2, 2)]).CURRENT_STATE.REGS (spec_rs 0x0022001B)
          / (scenario [] [(1, 7), (2, 2)]).CURRENT_STATE.REGS (spec_rt 0x0022001B)) :=
  C16_div_divu.1 0x0022001B (scenario [] [(1, 7), (2, 2)]) (by decide) (by decide)

/-- C17. With `R[rt] = 0` neither `handle_div` nor `handle_divu` has a result: the C division
by zero is executed before any assignment, so no status is returned, HI, LO and the next PC
are not written, and `process_instruction` does not return either (DIV r1, r0 and
DIVU r1, r0 with R[1] = 7). -/
theorem C17_divide_by_zero :
    (∀ (w : Nat) (m : Machine), m.CURRENT_STATE.REGS (spec_rt w) = 0 →
      handle_div w m = none ∧ handle_divu w m = none) ∧
    handle_div 0x0020001A (scenario [(0x00400000, 0x0020001A)] [(1, 7)]) = none ∧
    handle_divu 0x0020001B (scenario [(0x00400000, 0x0020001B)] [(1, 7)]) = none ∧
    (process_instruction TABLES (scenario [(0x00400000, 0x0020001A)] [(1, 7)])).isNone = true ∧
    (process_instruction TABLES (scenario [(0x00400000, 0x0020001B)] [(1, 7)])).isNone
      = true := by
  refine ⟨fun w m h => ?_, rfl, rfl, by decide, by decide⟩
  rw [← decode_r_rt_eq] at h
  constructor
  · unfold handle_div
    exact if_pos (by exact_mod_cast h)
  · unfold handle_divu
    exact if_pos h

/-- Witness of C17: DIV r1, r0 in the scenario start state, where R[0] = 0. -/
theorem C17_divide_by_zero_witness :
    handle_div 0x0020001A (scenario [] [(1, 7)]) = none ∧
    handle_divu 0x0020001A (scenario [] [(1, 7)]) = none :=
  C17_divide_by_zero.1 0x0020001A (scenario [] [(1, 7)]) (by decide)

/-- C18. SRA r2, r2, 2 (word 0x00021083) and SRAV r2, r2, r3 with R[3] = 2 on the operand
R[2] = 0x40000000, whose sign bit is clear, store 0xD0000000: the mask of the two high bits
is or-ed in although bit 31 is 0, where the arithmetic shift gives 0x10000000. On the operand
0x80000000 the handler stores 0xE0000000, as the arithmetic shift does. -/
theorem C18_sra_srav :
    result_reg (handle_sra 0x00021083 (scenario [] [(2, 0x40000000)])) 2 = some 0xD0000000 ∧
    spec_shamt 0x00021083 = 2 ∧ spec_sra 0x40000000 2 = 0x10000000 ∧
    result_reg (handle_srav 0x00621007 (scenario [] [(2, 0x40000000), (3, 2)])) 2
      = some 0xD0000000 ∧
    result_reg (handle_sra 0x00021083 (scenario [] [(2, 0x80000000)])) 2 = some 0xE0000000 ∧
    spec_sra 0x80000000 2 = 0xE0000000 := by
  decide

/-- C19. For every state and word, `handle_sb` and `handle_sh` store the word 0 at the
effective address: the preserved bits and the new byte or halfword are combined with `&` and
share no bit. SB of R[2] = 0xAB over the old word 0x11223344 leaves 0, where replacing the
low byte gives 0x112233AB; SH of R[2] = 0xABCD leaves 0, where replacing the low halfword
gives 0x1122ABCD. -/
theorem C19_sub_word_stores :
    (∀ (w : Nat) (m : Machine),
      result_mem (handle_sb w m) (effective_address m w) = some 0 ∧
      result_mem (handle_sh w m) (effective_address m w) = some 0) ∧
    result_mem (handle_sb 0xA0220000
      (scenario [(0x100, 0x11223344)] [(1, 0x100), (2, 0xAB)])) 0x100 = some 0 ∧
    spec_sb_word 0x11223344 0xAB = 0x112233AB ∧
    result_mem (handle_sh 0xA4220000
      (scenario [(0x100, 0x11223344)] [(1, 0x100), (2, 0xABCD)])) 0x100 = some 0 ∧
    spec_sh_word 0x11223344 0xABCD = 0x1122ABCD := by
  refine ⟨fun w m => ⟨?_, ?_⟩, by decide, by decide, by decide, by decide⟩
  · simp [result_mem, handle_sb, set_next_pc, mem_write_32, and_low_high_byte]
  · simp [result_mem, handle_sh, set_next_pc, mem_write_32, and_low_high_half]

/-- C20. Over the memory of the model, in which a read of an address returns the last word
written to it: for every state, every SW word `s` and LW word `l` with the same base register
and the same imm16, giving a word-aligned address `A = R[rs] + SE(imm16)`, `handle_sw` returns
`STATUS_OK` with `R[rt]` in memory at `A`, and `handle_lw`, run on any machine with that
memory and the same base register value, returns `STATUS_OK` with `R[rt]` in the register
`rt` of `l` and still in memory at `A`. Scenario S1: the program 0x24020005, 0xAC020000,
0x8C030000 from PC 0x00400000 gives R[2] = 5, memory[0] = 5, R[3] = 5, PC = 0x0040000C and
the run flag still 1 after three steps. -/
theorem C20_sw_lw_round_trip (s l : Nat) (m : Machine)
    (hrs : spec_rs l = spec_rs s) (himm : l &&& 0xFFFF = s &&& 0xFFFF)
    (_halign : (m.CURRENT_STATE.REGS (spec_rs s) + spec_imm16 s) % 4294967296 % 4 = 0) :
    (∃ m1, handle_sw s m = some (m1, Status.STATUS_OK) ∧
      m1.MEM ((m.CURRENT_STATE.REGS (spec_rs s) + spec_imm16 s) % 4294967296)
        = m.CURRENT_STATE.REGS (spec_rt s) ∧
      ∀ mid : Machine, mid.MEM = m1.MEM →
        mid.CURRENT_STATE.REGS (spec_rs s) = m.CURRENT_STATE.REGS (spec_rs s) →
        ∃ m2, handle_lw l mid = some (m2, Status.STATUS_OK) ∧
          m2.NEXT_STATE.REGS (spec_rt l) = m.CURRENT_STATE.REGS (spec_rt s) ∧
          m2.MEM ((m.CURRENT_STATE.REGS (spec_rs s) + spec_imm16 s) % 4294967296)
            = m.CURRENT_STATE.REGS (spec_rt s)) ∧
    (((step TABLES (scenario [(0x00400000, 0x24020005), (0x00400004, 0xAC020000),
        (0x00400008, 0x8C030000)] [])).bind (step TABLES)).bind (step TABLES)).map
      (fun m3 => (m3.CURRENT_STATE.REGS 2, m3.MEM 0, m3.CURRENT_STATE.REGS 3,
        m3.CURRENT_STATE.PC, m3.RUN_BIT)) = some (5, 5, 5, 0x0040000C, 1) := by
  refine ⟨⟨_, rfl, ?_, ?_⟩, by decide⟩
  · simp [set_next_pc, mem_write_32, effective_address_eq, decode_i_rt_eq]
  · intro mid hmem hbase
    refine ⟨_, rfl, ?_, ?_⟩
    · simp [set_next_pc, set_next_reg, mem_read_32, mem_write_32, effective_address_eq,
        decode_i_rt_eq, hmem, hrs, hbase, spec_imm16_congr s l himm]
    · simp [set_next_pc, set_next_reg, mem_write_32, effective_address_eq,
        decode_i_rt_eq, hmem]

/-- Witness of C20: SW r2, 0(r0) then LW r3, 0(r0) with R[2] = 5, address 0. -/
theorem C20_sw_lw_round_trip_witness :
    (∃ m1, handle_sw 0xAC020000 (scenario [] [(2, 5)]) = some (m1, Status.STATUS_OK) ∧
      m1.MEM (((scenario [] [(2, 5)]).CURRENT_STATE.REGS (spec_rs 0xAC020000)
          + spec_imm16 0xAC020000) % 4294967296)
        = (scenario [] [(2, 5)]).CURRENT_STATE.REGS (spec_rt 0xAC020000) ∧
      ∀ mid : Machine, mid.MEM = m1.MEM →
        mid.CURRENT_STATE.REGS (spec_rs 0xAC020000)
          = (scenario [] [(2, 5)]).CURRENT_STATE.REGS (spec_rs 0xAC020000) →
        ∃ m2, handle_lw 0x8C030000 mid = some (m2, Status.STATUS_OK) ∧
          m2.NEXT_STATE.REGS (spec_rt 0x8C030000)
            = (scenario [] [(2, 5)]).CURRENT_STATE.REGS (spec_rt 0xAC020000) ∧
          m2.MEM (((scenario [] [(2, 5)]).CURRENT_STATE.REGS (spec_rs 0xAC020000)
              + spec_imm16 0xAC020000) % 4294967296)
            = (scenario [] [(2, 5)]).CURRENT_STATE.REGS (spec_rt 0xAC020000)) ∧
    (((step TABLES (scenario [(0x00400000, 0x24020005), (0x00400004, 0xAC020000),
        (0x00400008, 0x8C030000)] [])).bind (step TABLES)).bind (step TABLES)).map
      (fun m3 => (m3.CURRENT_STATE.REGS 2, m3.MEM 0, m3.CURRENT_STATE.REGS 3,
        m3.CURRENT_STATE.PC, m3.RUN_BIT)) = some (5, 5, 5, 0x0040000C, 1) :=
  C20_sw_lw_round_trip 0xAC020000 0x8C030000 (scenario [] [(2, 5)]) (by decide) (by decide)
    (by decide)

/-! ## Helper lemmas: loads, register ALU and frame -/

theorem byte_field_lt (x : Nat) : x &&& 0xFF < 256 :=
  Nat.and_lt_two_pow x (by norm_num : (0xFF : Nat) < 2 ^ 8)

theorem half_field_lt (x : Nat) : x &&& 0xFFFF < 65536 :=
  Nat.and_lt_two_pow x (by norm_num : (0xFFFF : Nat) < 2 ^ 16)

/-- The byte load value: the `int8_t` cast widened to 32 bits is the sign extension. -/
theorem u32_i8_byte (x : Nat) : u32 (i8 (x &&& 0xFF)) = SE8 (x &&& 0xFF) := by
  have h := byte_field_lt x
  simp only [u32, i8, SE8]
  split_ifs <;> omega

/-- The halfword load value: the `int16_t` cast widened to 32 bits is the sign
extension. -/
theorem u32_i16_half (x : Nat) : u32 (i16 (x &&& 0xFFFF)) = SE (x &&& 0xFFFF) := by
  have h := half_field_lt x
  simp only [u32, i16, SE]
  split_ifs <;> omega

/-- On 32-bit values the cast `(int32_t)` is the signed reading of the spec. -/
theorem i32_eq_signed32 (x : Nat) (h : x < 4294967296) : i32 x = signed32 x := by
  simp only [i32, signed32]
  split_ifs <;> omega

/-- The sum of the two `int32_t` casts, stored in a register, is the wrapping sum. -/
theorem add32_eq (a b : Nat) : u32 (i32 a + i32 b) = (a + b) % 4294967296 := by
  simp only [u32, i32]
  split_ifs <;> omega

/-- The difference of the two `int32_t` casts, stored in a register, is the wrapping
difference. -/
theorem sub32_eq (a b : Nat) : u32 (i32 a - i32 b) = spec_sub32 a b := by
  simp only [u32, i32, spec_sub32, low32]
  split_ifs <;> omega

/-- Exclusive or with the all-ones word is the 32-bit complement. -/
theorem xor_all_ones (x : Nat) (h : x < 4294967296) : x ^^^ 0xFFFFFFFF = spec_not32 x := by
  have h2 : x < 2 ^ 32 := by norm_num; exact h
  have e : spec_not32 x = 2 ^ 32 - (x + 1) := by simp only [spec_not32]; omega
  rw [e]
  apply Nat.eq_of_testBit_eq
  intro i
  have hm : (0xFFFFFFFF : Nat) = 2 ^ 32 - 1 := by norm_num
  rw [Nat.testBit_two_pow_sub_succ h2, Nat.testBit_xor, hm, Nat.testBit_two_pow_sub_one]
  by_cases hi : i < 32
  · simp [hi]
  · have hx : x.testBit i = false :=
      Nat.testBit_lt_two_pow (Nat.lt_of_lt_of_le h2 (Nat.pow_le_pow_right (by norm_num)
        (by omega)))
    simp [hi, hx]

/-- The signed reading of `SE(imm16)` is the decoded `int16_t` immediate. -/
theorem signed32_imm16 (w : Nat) : signed32 (spec_imm16 w) = decode_i_immediate w := by
  have h := imm_field_lt w
  rw [decode_i_immediate_eq]
  simp only [signed32, spec_imm16, SE, signed16]
  split_ifs <;> omega

/-- The value `handle_lui` stores is the immediate field shifted into the upper half. -/
theorem lui_value (w : Nat) :
    u32 (i32 (u32 (shl_int (decode_i_immediate w) 16) &&& 0xFFFF0000))
      = (w &&& 0xFFFF) <<< 16 := by
  have h := imm_field_lt w
  have e1 : u32 (shl_int (decode_i_immediate w) 16) = (w &&& 0xFFFF) * 65536 := by
    rw [decode_i_immediate_eq]
    simp only [shl_int, u32, i32, signed16]
    norm_num
    split_ifs <;> omega
  have e2 : (w &&& 0xFFFF) * 65536 &&& 0xFFFF0000 = (w &&& 0xFFFF) * 65536 := by
    have := and_mask_eq ((w &&& 0xFFFF) * 65536) 16 16
    norm_num at this
    rw [this]
    omega
  rw [e1, e2, Nat.shiftLeft_eq]
  simp only [u32, i32]
  norm_num
  split_ifs <;> omega

/-- The three assignments of the multiply and divide handlers leave everything but HI, LO and
the next PC as it was. -/
theorem frame_hi_lo_pc (m : Machine) (x y z : Nat) :
    (set_next_pc (set_next_lo (set_next_hi m x) y) z).CURRENT_STATE = m.CURRENT_STATE ∧
    (set_next_pc (set_next_lo (set_next_hi m x) y) z).MEM = m.MEM ∧
    (set_next_pc (set_next_lo (set_next_hi m x) y) z).RUN_BIT = m.RUN_BIT ∧
    (set_next_pc (set_next_lo (set_next_hi m x) y) z).NEXT_STATE.REGS = m.NEXT_STATE.REGS :=
  ⟨rfl, rfl, rfl, rfl⟩

/-- With a zero divisor `handle_div` has no result. -/
theorem handle_div_zero (w : Nat) (m : Machine)
    (h : m.CURRENT_STATE.REGS (decode_r_rt w) = 0) : handle_div w m = none := by
  unfold handle_div
  exact if_pos (by exact_mod_cast h)

/-- What a handler call leaves untouched: the current state always; HI and LO, memory and the
run flag outside the handlers that write them; and the run flag is never set to anything but
its old value or 0. -/
theorem frame_rest (h : Handler) (w : Nat) (m m' : Machine) (st : Status)
    (hc : h.call w m = some (m', st)) :
    m'.CURRENT_STATE = m.CURRENT_STATE ∧
    (h.writes_hi_lo = false →
      m'.NEXT_STATE.HI = m.NEXT_STATE.HI ∧ m'.NEXT_STATE.LO = m.NEXT_STATE.LO) ∧
    (h.writes_memory = false → m'.MEM = m.MEM) ∧
    (h.writes_run = false → m'.RUN_BIT = m.RUN_BIT) ∧
    (m'.RUN_BIT = m.RUN_BIT ∨ m'.RUN_BIT = 0) := by
  cases h
  case MULT =>
    have e := (Prod.mk.inj (Option.some.inj ((handle_mult_eq w m).symm.trans hc))).1
    subst e
    have f := frame_hi_lo_pc m
    exact ⟨(f _ _ _).1, fun c => absurd c (by decide), fun _ => (f _ _ _).2.1,
      fun _ => (f _ _ _).2.2.1, Or.inl (f _ _ _).2.2.1⟩
  case DIV =>
    by_cases hz : m.CURRENT_STATE.REGS (decode_r_rt w) = 0
    · have hn : handle_div w m = none := handle_div_zero w m hz
      have hc' : handle_div w m = some (m', st) := hc
      rw [hn] at hc'
      exact absurd hc' (by simp)
    · have e := (Prod.mk.inj (Option.some.inj ((handle_div_eq w m hz).symm.trans hc))).1
      subst e
      have f := frame_hi_lo_pc m
      exact ⟨(f _ _ _).1, fun c => absurd c (by decide), fun _ => (f _ _ _).2.1,
        fun _ => (f _ _ _).2.2.1, Or.inl (f _ _ _).2.2.1⟩
  all_goals
    simp only [Handler.call, handle_j, handle_jal, handle_beq, handle_bne, handle_blez,
      handle_bgtz, handle_addi, handle_addiu, handle_slti, handle_sltiu, handle_andi,
      handle_ori, handle_xori, handle_lui, handle_lb, handle_lh, handle_lw, handle_lbu,
      handle_lhu, handle_sb, handle_sh, handle_sw, handle_sll, handle_srl, handle_sra,
      handle_sllv, handle_srlv, handle_srav, handle_jr, handle_jalr, handle_syscall,
      handle_mfhi, handle_mthi, handle_mflo, handle_mtlo, handle_multu,
      handle_divu, handle_add, handle_addu, handle_sub, handle_subu, handle_and,
      handle_or, handle_xor, handle_nor, handle_slt, handle_sltu, handle_bltz, handle_bgez,
      handle_bltzal, handle_bgezal, handle_unrecognized_opcode, handle_unrecognized_function,
      handle_unrecognized_target] at hc
    try split at hc
    all_goals
      simp only [Option.some.injEq, Prod.mk.injEq, reduceCtorEq] at hc
      try (obtain ⟨rfl, -⟩ := hc)
      try simp [set_next_pc, set_next_reg, set_next_hi, set_next_lo, mem_write_32,
        Handler.writes_hi_lo, Handler.writes_memory, Handler.writes_run]

/-- Whatever the tables hold, `process_instruction` leaves the run flag at its old value
or at 0. -/
theorem run_flag_step (d : Dispatch) (m m' : Machine)
    (hp : process_instruction d m = some m') :
    m'.RUN_BIT = m.RUN_BIT ∨ m'.RUN_BIT = 0 := by
  by_cases hw : mem_read_32 m m.CURRENT_STATE.PC = 0
  · have e : process_instruction d m = some { m with RUN_BIT := 0 } := by
      simp [process_instruction, hw]
    rw [e] at hp
    have := Option.some.inj hp
    subst this
    exact Or.inr rfl
  · rw [process_instruction_eq d m _ rfl hw] at hp
    split at hp
    · rename_i h _
      cases hcall : h.call (mem_read_32 m m.CURRENT_STATE.PC) m with
      | none => rw [hcall] at hp; exact absurd hp (by simp)
      | some r =>
        rw [hcall] at hp
        have e : r.1 = m' := Option.some.inj hp
        have := (frame_rest h _ m r.1 r.2 hcall).2.2.2.2
        rw [e] at this
        exact this
    · exact absurd hp (by simp)

/-! ## Claims C21 to C30 -/

/-- C21. For every state and word, with `A = (R[rs] + SE(imm16)) mod 2^32` and `m` the word
the memory read returns for `A`: LB stores the sign extension of `m & 0xFF` in `rt`, LBU
`m & 0xFF`, LH the sign extension of `m & 0xFFFF`, LHU `m & 0xFFFF`, and LW `m`. -/
theorem C21_loads (w : Nat) (m : Machine) :
    result_reg (handle_lb w m) (spec_rt w) = some (SE8
      (m.MEM ((m.CURRENT_STATE.REGS (spec_rs w) + spec_imm16 w) % 4294967296) &&& 0xFF)) ∧
    result_reg (handle_lbu w m) (spec_rt w) = some
      (m.MEM ((m.CURRENT_STATE.REGS (spec_rs w) + spec_imm16 w) % 4294967296) &&& 0xFF) ∧
    result_reg (handle_lh w m) (spec_rt w) = some (SE
      (m.MEM ((m.CURRENT_STATE.REGS (spec_rs w) + spec_imm16 w) % 4294967296) &&& 0xFFFF)) ∧
    result_reg (handle_lhu w m) (spec_rt w) = some
      (m.MEM ((m.CURRENT_STATE.REGS (spec_rs w) + spec_imm16 w) % 4294967296) &&& 0xFFFF) ∧
    result_reg (handle_lw w m) (spec_rt w) = some
      (m.MEM ((m.CURRENT_STATE.REGS (spec_rs w) + spec_imm16 w) % 4294967296)) := by
  refine ⟨?_, ?_, ?_, ?_, ?_⟩
  · simp [result_reg, handle_lb, set_next_pc, set_next_reg, mem_read_32, effective_address_eq,
      decode_i_rt_eq, u32_i8_byte]
  · have h := byte_field_lt
      (m.MEM ((m.CURRENT_STATE.REGS (spec_rs w) + spec_imm16 w) % 4294967296))
    simp [result_reg, handle_lbu, set_next_pc, set_next_reg, mem_read_32, effective_address_eq,
      decode_i_rt_eq, Nat.mod_eq_of_lt h]
  · simp [result_reg, handle_lh, set_next_pc, set_next_reg, mem_read_32, effective_address_eq,
      decode_i_rt_eq, u32_i16_half]
  · have h := half_field_lt
      (m.MEM ((m.CURRENT_STATE.REGS (spec_rs w) + spec_imm16 w) % 4294967296))
    simp [result_reg, handle_lhu, set_next_pc, set_next_reg, mem_read_32, effective_address_eq,
      decode_i_rt_eq, Nat.mod_eq_of_lt h]
  · simp [result_reg, handle_lw, set_next_pc, set_next_reg, mem_read_32, effective_address_eq,
      decode_i_rt_eq]

/-- C22. For every state, `handle_syscall` returns `STATUS_OK`; the run flag is 0 when
`CURRENT_STATE.REGS[2] = 0x0000000A` and keeps its value otherwise; the next PC is `PC + 4`;
the general registers, HI and LO of the next state, the current state and memory are
unchanged. Scenario S6: R[2] = 0x0A and the word 0x0000000C at PC 0x00400000 give run flag 0
and PC 0x00400004; with R[2] = 0x0B the run flag stays 1. -/
theorem C22_syscall (w : Nat) (m : Machine) :
    (∃ m', handle_syscall w m = some (m', Status.STATUS_OK) ∧
      m'.RUN_BIT = (if m.CURRENT_STATE.REGS 2 = 0x0000000A then 0 else m.RUN_BIT) ∧
      m'.NEXT_STATE.PC = (m.CURRENT_STATE.PC + 4) % 4294967296 ∧
      m'.NEXT_STATE.REGS = m.NEXT_STATE.REGS ∧ m'.NEXT_STATE.HI = m.NEXT_STATE.HI ∧
      m'.NEXT_STATE.LO = m.NEXT_STATE.LO ∧ m'.CURRENT_STATE = m.CURRENT_STATE ∧
      m'.MEM = m.MEM) ∧
    (step TABLES (scenario [(0x00400000, 0x0000000C)] [(2, 0x0000000A)])).map
      (fun m' => (m'.RUN_BIT, m'.CURRENT_STATE.PC)) = some (0, 0x00400004) ∧
    (step TABLES (scenario [(0x00400000, 0x0000000C)] [(2, 0x0000000B)])).map
      (fun m' => (m'.RUN_BIT, m'.CURRENT_STATE.PC)) = some (1, 0x00400004) := by
  refine ⟨?_, by decide, by decide⟩
  simp only [handle_syscall, REG_SYSCALL]
  split <;> exact ⟨_, rfl, by simp [set_next_pc, pc_plus_4, *]⟩

/-- C24. For every state with 32-bit register values and every word, the value written to
`rd` is `(R[rs] + R[rt]) mod 2^32` for ADD and ADDU, `(R[rs] - R[rt]) mod 2^32` for SUB and
SUBU, the bitwise and, or, exclusive or for AND, OR, XOR, the complement of the or for NOR,
1 or 0 by the signed comparison `(i32)R[rs] < (i32)R[rt]` for SLT and by the unsigned
comparison for SLTU. -/
theorem C24_register_alu (w : Nat) (m : Machine)
    (hrs : m.CURRENT_STATE.REGS (spec_rs w) < 4294967296)
    (hrt : m.CURRENT_STATE.REGS (spec_rt w) < 4294967296) :
    result_reg (handle_add w m) (spec_rd w) = some
      ((m.CURRENT_STATE.REGS (spec_rs w) + m.CURRENT_STATE.REGS (spec_rt w)) % 4294967296) ∧
    result_reg (handle_addu w m) (spec_rd w) = some
      ((m.CURRENT_STATE.REGS (spec_rs w) + m.CURRENT_STATE.REGS (spec_rt w)) % 4294967296) ∧
    result_reg (handle_sub w m) (spec_rd w) = some
      (spec_sub32 (m.CURRENT_STATE.REGS (spec_rs w)) (m.CURRENT_STATE.REGS (spec_rt w))) ∧
    result_reg (handle_subu w m) (spec_rd w) = some
      (spec_sub32 (m.CURRENT_STATE.REGS (spec_rs w)) (m.CURRENT_STATE.REGS (spec_rt w))) ∧
    result_reg (handle_and w m) (spec_rd w) = some
      (m.CURRENT_STATE.REGS (spec_rs w) &&& m.CURRENT_STATE.REGS (spec_rt w)) ∧
    result_reg (handle_or w m) (spec_rd w) = some
      (m.CURRENT_STATE.REGS (spec_rs w) ||| m.CURRENT_STATE.REGS (spec_rt w)) ∧
    result_reg (handle_xor w m) (spec_rd w) = some
      (m.CURRENT_STATE.REGS (spec_rs w) ^^^ m.CURRENT_STATE.REGS (spec_rt w)) ∧
    result_reg (handle_nor w m) (spec_rd w) = some
      (spec_not32 (m.CURRENT_STATE.REGS (spec_rs w) ||| m.CURRENT_STATE.REGS (spec_rt w))) ∧
    result_reg (handle_slt w m) (spec_rd w) = some
      (if signed32 (m.CURRENT_STATE.REGS (spec_rs w))
          < signed32 (m.CURRENT_STATE.REGS (spec_rt w)) then 1 else 0) ∧
    result_reg (handle_sltu w m) (spec_rd w) = some
      (if m.CURRENT_STATE.REGS (spec_rs w) < m.CURRENT_STATE.REGS (spec_rt w)
        then 1 else 0) := by
  have hor : m.CURRENT_STATE.REGS (spec_rs w) ||| m.CURRENT_STATE.REGS (spec_rt w)
      < 4294967296 := by
    have := @Nat.or_lt_two_pow (m.CURRENT_STATE.REGS (spec_rs w))
      (m.CURRENT_STATE.REGS (spec_rt w)) 32 (by norm_num; exact hrs) (by norm_num; exact hrt)
    norm_num at this
    exact this
  refine ⟨?_, ?_, ?_, ?_, ?_, ?_, ?_, ?_, ?_, ?_⟩
  · simp [result_reg, handle_add, set_next_pc, set_next_reg, decode_r_rs_eq, decode_r_rt_eq,
      decode_r_rd_eq, add32_eq]
  · simp [result_reg, handle_addu, set_next_pc, set_next_reg, decode_r_rs_eq, decode_r_rt_eq,
      decode_r_rd_eq, add32_eq]
  · simp [result_reg, handle_sub, set_next_pc, set_next_reg, decode_r_rs_eq, decode_r_rt_eq,
      decode_r_rd_eq, sub32_eq]
  · simp [result_reg, handle_subu, set_next_pc, set_next_reg, decode_r_rs_eq, decode_r_rt_eq,
      decode_r_rd_eq, sub32_eq]
  · simp [result_reg, handle_and, set_next_pc, set_next_reg, decode_r_rs_eq, decode_r_rt_eq,
      decode_r_rd_eq]
  · simp [result_reg, handle_or, set_next_pc, set_next_reg, decode_r_rs_eq, decode_r_rt_eq,
      decode_r_rd_eq]
  · simp [result_reg, handle_xor, set_next_pc, set_next_reg, decode_r_rs_eq, decode_r_rt_eq,
      decode_r_rd_eq]
  · simp [result_reg, handle_nor, set_next_pc, set_next_reg, decode_r_rs_eq, decode_r_rt_eq,
      decode_r_rd_eq, xor_all_ones _ hor]
  · simp only [result_reg, handle_slt, decode_r_rs_eq, decode_r_rt_eq, decode_r_rd_eq,
      i32_eq_signed32 _ hrs, i32_eq_signed32 _ hrt]
    split <;> simp [set_next_pc, set_next_reg, *]
  · simp only [result_reg, handle_sltu, decode_r_rs_eq, decode_r_rt_eq, decode_r_rd_eq]
    split <;> simp [set_next_pc, set_next_reg, *]

/-- C25. For every state with a 32-bit `R[rs]` and every word, SLTI stores 1 in `rt` if
`(i32)R[rs] < (i32)SE(imm16)` and 0 otherwise, and SLTIU stores 1 if `R[rs]` is below
`SE(imm16)` as unsigned numbers and 0 otherwise; with imm16 = 0xFFFF the operand is
0xFFFFFFFF, so SLTIU r2, r1, 0xFFFF with R[1] = 5 stores 1. -/
theorem C25_slti_sltiu (w : Nat) (m : Machine)
    (hrs : m.CURRENT_STATE.REGS (spec_rs w) < 4294967296) :
    result_reg (handle_slti w m) (spec_rt w) = some
      (if signed32 (m.CURRENT_STATE.REGS (spec_rs w)) < signed32 (spec_imm16 w)
        then 1 else 0) ∧
    result_reg (handle_sltiu w m) (spec_rt w) = some
      (if m.CURRENT_STATE.REGS (spec_rs w) < spec_imm16 w then 1 else 0) ∧
    spec_imm16 0x2C22FFFF = 0xFFFFFFFF ∧
    result_reg (handle_sltiu 0x2C22FFFF (scenario [] [(1, 5)])) 2 = some 1 := by
  refine ⟨?_, ?_, by decide, by decide⟩
  · simp only [result_reg, handle_slti, decode_i_rs_eq, decode_i_rt_eq,
      i32_eq_signed32 _ hrs, signed32_imm16]
    split <;> simp [set_next_pc, set_next_reg, *]
  · simp only [result_reg, handle_sltiu, decode_i_rs_eq, decode_i_rt_eq,
      u32_decode_i_immediate, spec_imm16]
    split <;> simp [set_next_pc, set_next_reg, *]

/-- C26. For every word, `handle_lui` stores `(w & 0xFFFF) << 16` in `rt`: the low 16 bits
of the result are zero and the high 16 bits are the immediate field, also when bit 15 of the
immediate is set (LUI r2, 0x8000 stores 0x80000000). -/
theorem C26_lui (w : Nat) (m : Machine) :
    result_reg (handle_lui w m) (spec_rt w) = some ((w &&& 0xFFFF) <<< 16) ∧
    ((w &&& 0xFFFF) <<< 16) &&& 0xFFFF = 0 ∧
    ((w &&& 0xFFFF) <<< 16) >>> 16 = w &&& 0xFFFF ∧
    result_reg (handle_lui 0x3C028000 (scenario [] [])) 2 = some 0x80000000 := by
  have h := imm_field_lt w
  refine ⟨?_, ?_, ?_, by decide⟩
  · simp [result_reg, handle_lui, set_next_pc, set_next_reg, decode_i_rt_eq, lui_value]
  · have := Nat.and_pow_two_sub_one_eq_mod ((w &&& 0xFFFF) <<< 16) 16
    norm_num at this
    rw [this, Nat.shiftLeft_eq]
    omega
  · rw [Nat.shiftLeft_eq, Nat.shiftRight_eq_div_pow]
    omega

/-- C27. For every state and word, SLL writes `(R[rt] << shamt) mod 2^32` and SRL writes
`R[rt] >> shamt` to `rd`; SLLV and SRLV write the same with the shift amount
`R[rs] & 0x1F`. -/
theorem C27_logical_shifts (w : Nat) (m : Machine) :
    result_reg (handle_sll w m) (spec_rd w) = some
      ((m.CURRENT_STATE.REGS (spec_rt w) <<< spec_shamt w) % 4294967296) ∧
    result_reg (handle_srl w m) (spec_rd w) = some
      (m.CURRENT_STATE.REGS (spec_rt w) >>> spec_shamt w) ∧
    result_reg (handle_sllv w m) (spec_rd w) = some
      ((m.CURRENT_STATE.REGS (spec_rt w) <<< (m.CURRENT_STATE.REGS (spec_rs w) &&& 0x1F))
        % 4294967296) ∧
    result_reg (handle_srlv w m) (spec_rd w) = some
      (m.CURRENT_STATE.REGS (spec_rt w) >>> (m.CURRENT_STATE.REGS (spec_rs w) &&& 0x1F)) := by
  refine ⟨?_, ?_, ?_, ?_⟩
  · simp [result_reg, handle_sll, set_next_pc, set_next_reg, decode_r_rt_eq, decode_r_rd_eq,
      decode_r_shamt_eq]
  · simp [result_reg, handle_srl, set_next_pc, set_next_reg, decode_r_rt_eq, decode_r_rd_eq,
      decode_r_shamt_eq]
  · simp [result_reg, handle_sllv, set_next_pc, set_next_reg, decode_r_rt_eq, decode_r_rd_eq,
      decode_r_rs_eq]
  · simp [result_reg, handle_srlv, set_next_pc, set_next_reg, decode_r_rt_eq, decode_r_rd_eq,
      decode_r_rs_eq]

/-- C28. For every state, every variable-shift word `v` and fixed-shift word `f` with the
same `rt` and `rd`: if `R[rs] & 0x1F` equals the `shamt` of `f`, then `handle_sllv` on `v`
returns exactly what `handle_sll` returns on `f`, `handle_srlv` what `handle_srl` returns and
`handle_srav` what `handle_sra` returns. The proof rewrites the shift amount and never
evaluates a shift, so it does not depend on the value given to a shift by 32. -/
theorem C28_shift_equivalence (v f : Nat) (m : Machine)
    (hrt : spec_rt v = spec_rt f) (hrd : spec_rd v = spec_rd f)
    (hsa : m.CURRENT_STATE.REGS (spec_rs v) &&& 0x1F = spec_shamt f) :
    handle_sllv v m = handle_sll f m ∧ handle_srlv v m = handle_srl f m ∧
    handle_srav v m = handle_sra f m := by
  refine ⟨?_, ?_, ?_⟩
  · simp only [handle_sllv, handle_sll, decode_r_rs_eq, decode_r_rt_eq, decode_r_rd_eq,
      decode_r_shamt_eq, hrt, hrd, hsa]
  · simp only [handle_srlv, handle_srl, decode_r_rs_eq, decode_r_rt_eq, decode_r_rd_eq,
      decode_r_shamt_eq, hrt, hrd, hsa]
  · simp only [handle_srav, handle_sra, decode_r_rs_eq, decode_r_rt_eq, decode_r_rd_eq,
      decode_r_shamt_eq, hrt, hrd, hsa]

/-- C29. For every state and word, MFHI stores the current HI in `rd` and MFLO the current
LO; MTHI leaves `R[rs]` in the next HI and the next LO as it was; MTLO leaves `R[rs]` in the
next LO and the next HI as it was. -/
theorem C29_hi_lo_moves (w : Nat) (m : Machine) :
    result_reg (handle_mfhi w m) (spec_rd w) = some m.CURRENT_STATE.HI ∧
    result_reg (handle_mflo w m) (spec_rd w) = some m.CURRENT_STATE.LO ∧
    result_hi_lo (handle_mthi w m)
      = some (m.CURRENT_STATE.REGS (spec_rs w), m.NEXT_STATE.LO) ∧
    result_hi_lo (handle_mtlo w m)
      = some (m.NEXT_STATE.HI, m.CURRENT_STATE.REGS (spec_rs w)) := by
  refine ⟨?_, ?_, ?_, ?_⟩
  · simp [result_reg, handle_mfhi, set_next_pc, set_next_reg, decode_r_rd_eq]
  · simp [result_reg, handle_mflo, set_next_pc, set_next_reg, decode_r_rd_eq]
  · simp [result_hi_lo, handle_mthi, set_next_pc, set_next_hi, decode_r_rs_eq]
  · simp [result_hi_lo, handle_mtlo, set_next_pc, set_next_lo, decode_r_rs_eq]

/-- C23. For every state whose run flag is 0: whatever the tables hold, the machine
`process_instruction` returns, and the machine after the commit, have the run flag 0; with
initialised tables `process_instruction` does return (DIV and DIVU with a zero divisor
apart); and no handler, on any word, returns a machine whose run flag is not 0. -/
theorem C23_no_resume (d : Dispatch) (m : Machine) (hrun : m.RUN_BIT = 0) :
    (∀ m', process_instruction d m = some m' → m'.RUN_BIT = 0) ∧
    (∀ m', step d m = some m' → m'.RUN_BIT = 0) ∧
    (¬ divides_by_zero (spec_handler (mem_read_32 m m.CURRENT_STATE.PC))
        (mem_read_32 m m.CURRENT_STATE.PC) m →
      ∃ m', process_instruction (initialize_dispatch d) m = some m' ∧ m'.RUN_BIT = 0) ∧
    (∀ (h : Handler) (w : Nat) (m' : Machine) (st : Status),
      h.call w m = some (m', st) → m'.RUN_BIT = 0) := by
  have key : ∀ d' m', process_instruction d' m = some m' → m'.RUN_BIT = 0 := by
    intro d' m' hp
    rcases run_flag_step d' m m' hp with h | h
    · rw [h, hrun]
    · exact h
  refine ⟨key d, ?_, ?_, ?_⟩
  · intro m' hs
    simp only [step, Option.map_eq_some'] at hs
    obtain ⟨m1, hp, rfl⟩ := hs
    exact key d m1 hp
  · intro hz
    by_cases hw : mem_read_32 m m.CURRENT_STATE.PC = 0
    · exact ⟨{ m with RUN_BIT := 0 }, by simp [process_instruction, hw], rfl⟩
    · obtain ⟨m', st, hc⟩ := call_total _ _ m hz
      have hp : process_instruction (initialize_dispatch d) m = some m' := by
        rw [process_instruction_init d m _ rfl hw, hc]; rfl
      exact ⟨m', hp, key _ m' hp⟩
  · intro h w m' st hc
    rcases (frame_rest h w m m' st hc).2.2.2.2 with e | e
    · rw [e, hrun]
    · exact e

/-- Witness of C23: the halted scenario state with ADDIU r2, r0, 5 at the PC. -/
theorem C23_no_resume_witness :
    (∀ m', process_instruction TABLES
        { scenario [(0x00400000, 0x24020005)] [] with RUN_BIT := 0 } = some m' →
      m'.RUN_BIT = 0) ∧
    (∀ m', step TABLES { scenario [(0x00400000, 0x24020005)] [] with RUN_BIT := 0 } = some m' →
      m'.RUN_BIT = 0) ∧
    (¬ divides_by_zero (spec_handler (mem_read_32
          { scenario [(0x00400000, 0x24020005)] [] with RUN_BIT := 0 }
          ({ scenario [(0x00400000, 0x24020005)] [] with RUN_BIT := 0 } :
            Machine).CURRENT_STATE.PC))
        (mem_read_32 { scenario [(0x00400000, 0x24020005)] [] with RUN_BIT := 0 }
          ({ scenario [(0x00400000, 0x24020005)] [] with RUN_BIT := 0 } :
            Machine).CURRENT_STATE.PC)
        { scenario [(0x00400000, 0x24020005)] [] with RUN_BIT := 0 } →
      ∃ m', process_instruction (initialize_dispatch TABLES)
        { scenario [(0x00400000, 0x24020005)] [] with RUN_BIT := 0 } = some m' ∧
        m'.RUN_BIT = 0) ∧
    (∀ (h : Handler) (w : Nat) (m' : Machine) (st : Status),
      h.call w { scenario [(0x00400000, 0x24020005)] [] with RUN_BIT := 0 } = some (m', st) →
      m'.RUN_BIT = 0) :=
  C23_no_resume TABLES { scenario [(0x00400000, 0x24020005)] [] with RUN_BIT := 0 } rfl

/-- C30. For every handler, state and word: the call returns (DIV and DIVU with a zero divisor
apart), and whenever it returns, `CURRENT_STATE` is unchanged, every general register of
`NEXT_STATE` other than the destination of the handler keeps its value, HI and LO are
unchanged unless the handler is MULT, MULTU, DIV, DIVU, MTHI or MTLO, memory is unchanged
unless it is SB, SH or SW, and the run flag is unchanged unless it is SYSCALL. -/
theorem C30_frame (h : Handler) (w : Nat) (m : Machine) :
    (¬ divides_by_zero h w m → ∃ m' st, h.call w m = some (m', st)) ∧
    (∀ (m' : Machine) (st : Status), h.call w m = some (m', st) →
      m'.CURRENT_STATE = m.CURRENT_STATE ∧
      (∀ r, destination h w ≠ some r → m'.NEXT_STATE.REGS r = m.NEXT_STATE.REGS r) ∧
      (h.writes_hi_lo = false →
        m'.NEXT_STATE.HI = m.NEXT_STATE.HI ∧ m'.NEXT_STATE.LO = m.NEXT_STATE.LO) ∧
      (h.writes_memory = false → m'.MEM = m.MEM) ∧
      (h.writes_run = false → m'.RUN_BIT = m.RUN_BIT)) := by
  refine ⟨call_total h w m, fun m' st hc => ?_⟩
  have f := frame_rest h w m m' st hc
  exact ⟨f.1, fun r hr => frame_regs h w m m' st r hc hr, f.2.1, f.2.2.1, f.2.2.2.1⟩

/-- Witness of C30: ADDIU r2, r0, 5 in the scenario start state returns, and leaves the
current state, the registers other than r2, HI, LO, memory and the run flag as they were. -/
theorem C30_frame_witness :
    (∃ m' st, Handler.ADDIU.call 0x24020005 (scenario [] []) = some (m', st)) ∧
    (∀ (m' : Machine) (st : Status),
      Handler.ADDIU.call 0x24020005 (scenario [] []) = some (m', st) →
      m'.CURRENT_STATE = (scenario [] []).CURRENT_STATE ∧
      (∀ r, destination Handler.ADDIU 0x24020005 ≠ some r →
        m'.NEXT_STATE.REGS r = (scenario [] []).NEXT_STATE.REGS r) ∧
      (Handler.ADDIU.writes_hi_lo = false →
        m'.NEXT_STATE.HI = (scenario [] []).NEXT_STATE.HI ∧
        m'.NEXT_STATE.LO = (scenario [] []).NEXT_STATE.LO) ∧
      (Handler.ADDIU.writes_memory = false → m'.MEM = (scenario [] []).MEM) ∧
      (Handler.ADDIU.writes_run = false → m'.RUN_BIT = (scenario [] []).RUN_BIT)) :=
  ⟨(C30_frame Handler.ADDIU 0x24020005 (scenario [] [])).1 (by decide),
    (C30_frame Handler.ADDIU 0x24020005 (scenario [] [])).2⟩

/-- Witness of C24: the word 0x00221820 (rs = 1, rt = 2, rd = 3) with R[1] = 0xFFFFFFFF and
R[2] = 2. -/
theorem C24_register_alu_witness :
    result_reg (handle_add 0x00221820 (scenario [] [(1, 0xFFFFFFFF), (2, 2)])) 3 = some 1 ∧
    result_reg (handle_sub 0x00221820 (scenario [] [(1, 0xFFFFFFFF), (2, 2)])) 3
      = some 0xFFFFFFFD ∧
    result_reg (handle_nor 0x00221820 (scenario [] [(1, 0xFFFFFFFF), (2, 2)])) 3 = some 0 ∧
    result_reg (handle_slt 0x00221820 (scenario [] [(1, 0xFFFFFFFF), (2, 2)])) 3 = some 1 ∧
    result_reg (handle_sltu 0x00221820 (scenario [] [(1, 0xFFFFFFFF), (2, 2)])) 3 = some 0 :=
  have h := C24_register_alu 0x00221820 (scenario [] [(1, 0xFFFFFFFF), (2, 2)]) (by decide)
    (by decide)
  ⟨h.1, h.2.2.1, h.2.2.2.2.2.2.2.1, h.2.2.2.2.2.2.2.2.1, h.2.2.2.2.2.2.2.2.2⟩

/-- Witness of C25: SLTIU r2, r1, 0xFFFF and SLTI on the same word with R[1] = 5. -/
theorem C25_slti_sltiu_witness :
    result_reg (handle_slti 0x2C22FFFF (scenario [] [(1, 5)])) 2 = some 0 ∧
    result_reg (handle_sltiu 0x2C22FFFF (scenario [] [(1, 5)])) 2 = some 1 :=
  have h := C25_slti_sltiu 0x2C22FFFF (scenario [] [(1, 5)]) (by decide)
  ⟨h.1, h.2.1⟩

/-- Witness of C28: the variable-shift word 0x00621007 (rs = 3, rt = 2, rd = 2) and the
fixed-shift word 0x00021083 (rt = 2, rd = 2, shamt = 2) with R[3] = 2. -/
theorem C28_shift_equivalence_witness :
    handle_sllv 0x00621007 (scenario [] [(2, 0x40000000), (3, 2)])
      = handle_sll 0x00021083 (scenario [] [(2, 0x40000000), (3, 2)]) ∧
    handle_srlv 0x00621007 (scenario [] [(2, 0x40000000), (3, 2)])
      = handle_srl 0x00021083 (scenario [] [(2, 0x40000000), (3, 2)]) ∧
    handle_srav 0x00621007 (scenario [] [(2, 0x40000000), (3, 2)])
      = handle_sra 0x00021083 (scenario [] [(2, 0x40000000), (3, 2)]) :=
  C28_shift_equivalence 0x00621007 0x00021083 (scenario [] [(2, 0x40000000), (3, 2)])
    (by decide) (by decide) (by decide)

/-! ## Helper lemmas: index bounds and reassembly of a word -/

theorem spec_rs_lt (w : Nat) : spec_rs w < 32 :=
  Nat.and_lt_two_pow _ (by norm_num : (0x1F : Nat) < 2 ^ 5)

theorem spec_rd_lt (w : Nat) : spec_rd w < 32 :=
  Nat.and_lt_two_pow _ (by norm_num : (0x1F : Nat) < 2 ^ 5)

/-- The register a handler writes is one of the 32 registers. -/
theorem destination_lt (h : Handler) (w r : Nat) (hd : destination h w = some r) : r < 32 := by
  have h1 := spec_rt_lt w
  have h2 := spec_rd_lt w
  cases h <;>
    simp only [destination, decode_i_rt_eq, decode_r_rd_eq, REG_LINK, Option.some.injEq,
      reduceCtorEq] at hd <;> omega

/-- In tables of `DISPATCH_SIZE` entries the slot `process_instruction` reads exists. -/
theorem slot_in_bounds (d : Dispatch) (w : Nat)
    (hf : d.FUNCTION_DISPATCH.length = DISPATCH_SIZE)
    (ht : d.TARGET_DISPATCH.length = DISPATCH_SIZE)
    (ho : d.OPCODE_DISPATCH.length = DISPATCH_SIZE) :
    ∃ s, dispatch_slot d w = some s := by
  have h1 := spec_opcode_lt w
  have h2 := spec_funct_lt w
  have h3 := spec_rt_lt w
  simp only [DISPATCH_SIZE] at hf ht ho
  simp only [dispatch_slot, decode_opcode_eq, decode_r_funct_eq, decode_i_rt_eq]
  split
  · exact ⟨_, List.getElem?_eq_getElem (by omega)⟩
  · split
    · exact ⟨_, List.getElem?_eq_getElem (by omega)⟩
    · exact ⟨_, List.getElem?_eq_getElem (by omega)⟩

theorem outcome_hi_lo_pc (m : Machine) (R : Nat → Nat) (x y z : Nat) (st : Status) :
    outcome (some (set_next_pc (set_next_lo (set_next_hi (with_regs m R) x) y) z, st))
      = outcome (some (set_next_pc (set_next_lo (set_next_hi m x) y) z, st)) := rfl

/-- A handler reads no register outside the indices 0..31: changing the current register file
anywhere else changes nothing in what the call leaves behind. -/
theorem reads_in_bounds (h : Handler) (w : Nat) (m : Machine) (R : Nat → Nat)
    (hR : ∀ r, r < 32 → R r = m.CURRENT_STATE.REGS r) :
    outcome (h.call w (with_regs m R)) = outcome (h.call w m) := by
  have a1 : (with_regs m R).CURRENT_STATE.REGS (decode_i_rs w)
      = m.CURRENT_STATE.REGS (decode_i_rs w) :=
    hR _ (by rw [decode_i_rs_eq]; exact spec_rs_lt w)
  have a2 : (with_regs m R).CURRENT_STATE.REGS (decode_i_rt w)
      = m.CURRENT_STATE.REGS (decode_i_rt w) :=
    hR _ (by rw [decode_i_rt_eq]; exact spec_rt_lt w)
  have a3 : (with_regs m R).CURRENT_STATE.REGS (decode_r_rs w)
      = m.CURRENT_STATE.REGS (decode_r_rs w) :=
    hR _ (by rw [decode_r_rs_eq]; exact spec_rs_lt w)
  have a4 : (with_regs m R).CURRENT_STATE.REGS (decode_r_rt w)
      = m.CURRENT_STATE.REGS (decode_r_rt w) :=
    hR _ (by rw [decode_r_rt_eq]; exact spec_rt_lt w)
  have a5 : (with_regs m R).CURRENT_STATE.REGS REG_SYSCALL
      = m.CURRENT_STATE.REGS REG_SYSCALL := hR _ (by decide)
  have a6 : pc_plus_4 (with_regs m R) = pc_plus_4 m := rfl
  cases h
  case MULT =>
    show outcome (handle_mult w (with_regs m R)) = outcome (handle_mult w m)
    rw [handle_mult_eq, handle_mult_eq, a3, a4, a6]
    exact outcome_hi_lo_pc m R _ _ _ _
  case DIV =>
    show outcome (handle_div w (with_regs m R)) = outcome (handle_div w m)
    by_cases hz : m.CURRENT_STATE.REGS (decode_r_rt w) = 0
    · rw [handle_div_zero w m hz, handle_div_zero w _ (a4.trans hz)]
    · rw [handle_div_eq w m hz, handle_div_eq w _ (fun e => hz (a4.symm.trans e)), a3, a4, a6]
      exact outcome_hi_lo_pc m R _ _ _ _
  all_goals
    simp only [Handler.call, handle_j, handle_jal, handle_beq, handle_bne, handle_blez,
      handle_bgtz, handle_addi, handle_addiu, handle_slti, handle_sltiu, handle_andi,
      handle_ori, handle_xori, handle_lui, handle_lb, handle_lh, handle_lw, handle_lbu,
      handle_lhu, handle_sb, handle_sh, handle_sw, handle_sll, handle_srl, handle_sra,
      handle_sllv, handle_srlv, handle_srav, handle_jr, handle_jalr, handle_syscall,
      handle_mfhi, handle_mthi, handle_mflo, handle_mtlo, handle_multu,
      handle_divu, handle_add, handle_addu, handle_sub, handle_subu, handle_and,
      handle_or, handle_xor, handle_nor, handle_slt, handle_sltu, handle_bltz, handle_bgez,
      handle_bltzal, handle_bgezal, handle_unrecognized_opcode, handle_unrecognized_function,
      handle_unrecognized_target, effective_address, a1, a2, a3, a4, a5]
    first
      | rfl
      | (split <;> rfl)

/-- A field shifted into place above a narrower value: the bitwise or is the sum. -/
theorem field_join (hi lo n : Nat) (h : lo < 2 ^ n) : (hi <<< n) ||| lo = hi * 2 ^ n + lo := by
  rw [Nat.shiftLeft_eq, Nat.mul_comm, Nat.mul_add_lt_is_or h]

theorem field_div_mod (w lo n : Nat) : (w >>> lo) &&& (2 ^ n - 1) = w / 2 ^ lo % 2 ^ n := by
  rw [Nat.and_pow_two_sub_one_eq_mod, Nat.shiftRight_eq_div_pow]

/-- The low 16 bits of the decoded immediate are the immediate field of the word. -/
theorem imm_pattern (w : Nat) : u32 (decode_i_immediate w) &&& 0xFFFF = w &&& 0xFFFF := by
  have h := imm_field_lt w
  rw [u32_decode_i_immediate]
  have e := Nat.and_pow_two_sub_one_eq_mod (SE (w &&& 0xFFFF)) 16
  norm_num at e
  rw [e]
  simp only [SE]
  split <;> omega

/-! ## Claims C31 to C33 -/

/-- C31. For every word: the index `process_instruction` uses into a dispatch table (opcode,
funct or rt) is below `DISPATCH_SIZE` = 64, and the register indices the handlers use (the
decoded rs, rt and rd, the link register and the syscall register) are below 32. Hence the
slot read exists in any tables of 64 entries, the initialised tables have 64 entries and
hold a handler in the slot read, every register a handler writes is one of the 32 (a register
index from 32 on is never written), and no handler reads a register outside 0..31. -/
theorem C31_in_bounds (w : Nat) :
    (decode_opcode w < DISPATCH_SIZE ∧ decode_r_funct w < DISPATCH_SIZE ∧
      decode_i_rt w < DISPATCH_SIZE) ∧
    (decode_i_rs w < 32 ∧ decode_i_rt w < 32 ∧ decode_r_rs w < 32 ∧ decode_r_rt w < 32 ∧
      decode_r_rd w < 32 ∧ REG_LINK < 32 ∧ REG_SYSCALL < 32) ∧
    (∀ d : Dispatch,
      (initialize_dispatch d).FUNCTION_DISPATCH.length = DISPATCH_SIZE ∧
      (initialize_dispatch d).TARGET_DISPATCH.length = DISPATCH_SIZE ∧
      (initialize_dispatch d).OPCODE_DISPATCH.length = DISPATCH_SIZE) ∧
    (∀ d : Dispatch, d.FUNCTION_DISPATCH.length = DISPATCH_SIZE →
      d.TARGET_DISPATCH.length = DISPATCH_SIZE → d.OPCODE_DISPATCH.length = DISPATCH_SIZE →
      ∃ s, dispatch_slot d w = some s) ∧
    (∀ d : Dispatch, ∃ h, dispatch_slot (initialize_dispatch d) w = some (some h)) ∧
    (∀ (h : Handler) (r : Nat), destination h w = some r → r < 32) ∧
    (∀ (h : Handler) (m m' : Machine) (st : Status) (r : Nat), 32 ≤ r →
      h.call w m = some (m', st) → m'.NEXT_STATE.REGS r = m.NEXT_STATE.REGS r) ∧
    (∀ (h : Handler) (m : Machine) (R : Nat → Nat),
      (∀ r, r < 32 → R r = m.CURRENT_STATE.REGS r) →
      outcome (h.call w (with_regs m R)) = outcome (h.call w m)) := by
  have h1 := spec_opcode_lt w
  have h2 := spec_funct_lt w
  have h3 := spec_rt_lt w
  have h4 := spec_rs_lt w
  have h5 := spec_rd_lt w
  refine ⟨?_, ?_, ?_, ?_, ?_, ?_, ?_, ?_⟩
  · simp only [decode_opcode_eq, decode_r_funct_eq, decode_i_rt_eq, DISPATCH_SIZE]
    omega
  · simp only [decode_i_rs_eq, decode_i_rt_eq, decode_r_rs_eq, decode_r_rt_eq, decode_r_rd_eq,
      REG_LINK, REG_SYSCALL]
    omega
  · intro d
    rw [tables_function, tables_target, tables_opcode]
    decide
  · exact fun d hf ht ho => slot_in_bounds d w hf ht ho
  · exact fun d => ⟨_, dispatch_slot_init d w⟩
  · exact fun h r hd => destination_lt h w r hd
  · intro h m m' st r hr hc
    refine frame_regs h w m m' st r hc (fun hd => ?_)
    have := destination_lt h w r hd
    omega
  · exact fun h m R hR => reads_in_bounds h w m R hR

/-- C32. For every state and word, with the register compared as the unsigned value it is:
`handle_bltz` and `handle_bltzal` set the next PC to `PC + 4`; `handle_bgez` and
`handle_bgezal` set it to `PC + (SE(imm16) << 2)`; `handle_blez` selects the branch target
exactly when `R[rs] = 0` and `handle_bgtz` exactly when `R[rs] ≠ 0`, `PC + 4` otherwise (all
modulo 2^32). With R[1] = 0x80000000 and offset +2 words at PC 0x00400000: BLTZ gives
0x00400004, BGEZ 0x00400008, BLEZ 0x00400004 and BGTZ 0x00400008; with R[1] = 0, BLEZ gives
0x00400008 and BGTZ 0x00400004. -/
theorem C32_unsigned_branches (w : Nat) (m : Machine) :
    result_pc (handle_bltz w m) = some ((m.CURRENT_STATE.PC + 4) % 4294967296) ∧
    result_pc (handle_bltzal w m) = some ((m.CURRENT_STATE.PC + 4) % 4294967296) ∧
    result_pc (handle_bgez w m)
      = some ((m.CURRENT_STATE.PC + (spec_imm16 w <<< 2)) % 4294967296) ∧
    result_pc (handle_bgezal w m)
      = some ((m.CURRENT_STATE.PC + (spec_imm16 w <<< 2)) % 4294967296) ∧
    result_pc (handle_blez w m) = some (spec_branch_pc
      (decide (m.CURRENT_STATE.REGS (spec_rs w) = 0)) m.CURRENT_STATE.PC w) ∧
    result_pc (handle_bgtz w m) = some (spec_branch_pc
      (decide (m.CURRENT_STATE.REGS (spec_rs w) ≠ 0)) m.CURRENT_STATE.PC w) ∧
    result_pc (handle_bltz 0x04200002 (scenario [] [(1, 0x80000000)])) = some 0x00400004 ∧
    result_pc (handle_bgez 0x04210002 (scenario [] [(1, 0x80000000)])) = some 0x00400008 ∧
    result_pc (handle_blez 0x18200002 (scenario [] [(1, 0x80000000)])) = some 0x00400004 ∧
    result_pc (handle_blez 0x18200002 (scenario [] [])) = some 0x00400008 ∧
    result_pc (handle_bgtz 0x1C200002 (scenario [] [(1, 0x80000000)])) = some 0x00400008 ∧
    result_pc (handle_bgtz 0x1C200002 (scenario [] [])) = some 0x00400004 := by
  refine ⟨?_, ?_, ?_, ?_, ?_, ?_, by decide, by decide, by decide, by decide, by decide,
    by decide⟩
  · simp [result_pc, handle_bltz, set_next_pc, pc_plus_4]
  · simp [result_pc, handle_bltzal, set_next_pc, set_next_reg, pc_plus_4]
  · simp [result_pc, handle_bgez, set_next_pc, branch_target_eq]
  · simp [result_pc, handle_bgezal, set_next_pc, set_next_reg, branch_target_eq]
  · simp only [result_pc, handle_blez, decode_i_rs_eq, spec_branch_pc, Nat.le_zero]
    by_cases h : m.CURRENT_STATE.REGS (spec_rs w) = 0 <;>
      simp [h, set_next_pc, pc_plus_4, branch_target_eq]
  · simp only [result_pc, handle_bgtz, decode_i_rs_eq, spec_branch_pc, gt_iff_lt,
      Nat.pos_iff_ne_zero]
    by_cases h : m.CURRENT_STATE.REGS (spec_rs w) = 0 <;>
      simp [h, set_next_pc, pc_plus_4, branch_target_eq]

/-- C33. For every 32-bit word `w`, the decoded fields put back in their places give `w`:
opcode, rs, rt, rd, shamt and funct of the register format; opcode, rs, rt and the low 16
bits of the immediate of the immediate format; opcode and target of the jump format. -/
theorem C33_decode_lossless (w : Nat) (hw : w < 4294967296) :
    w = (decode_opcode w <<< 26) ||| (decode_r_rs w <<< 21) ||| (decode_r_rt w <<< 16)
          ||| (decode_r_rd w <<< 11) ||| (decode_r_shamt w <<< 6) ||| decode_r_funct w ∧
    w = (decode_opcode w <<< 26) ||| (decode_i_rs w <<< 21) ||| (decode_i_rt w <<< 16)
          ||| (u32 (decode_i_immediate w) &&& 0xFFFF) ∧
    w = (decode_opcode w <<< 26) ||| decode_j_target w := by
  have e6 := field_div_mod w 26 6
  have e5a := field_div_mod w 21 5
  have e5b := field_div_mod w 16 5
  have e5c := field_div_mod w 11 5
  have e5d := field_div_mod w 6 5
  have ef := Nat.and_pow_two_sub_one_eq_mod w 6
  have ei := Nat.and_pow_two_sub_one_eq_mod w 16
  have et := Nat.and_pow_two_sub_one_eq_mod w 26
  norm_num at e6 e5a e5b e5c e5d ef ei et
  simp only [decode_opcode_eq, decode_r_rs_eq, decode_r_rt_eq, decode_r_rd_eq,
    decode_r_shamt_eq, decode_r_funct_eq, decode_i_rs_eq, decode_i_rt_eq, decode_j_target_eq,
    imm_pattern, spec_opcode, spec_rs, spec_rt, spec_rd, spec_shamt, spec_funct, spec_target26,
    e6, e5a, e5b, e5c, e5d, ef, ei, et, Nat.or_assoc]
  refine ⟨?_, ?_, ?_⟩
  · rw [field_join _ _ 6 (by omega), field_join _ _ 11 (by omega), field_join _ _ 16 (by omega),
      field_join _ _ 21 (by omega), field_join _ _ 26 (by omega)]
    omega
  · rw [field_join _ _ 16 (by omega), field_join _ _ 21 (by omega),
      field_join _ _ 26 (by omega)]
    omega
  · rw [field_join _ _ 26 (by omega)]
    omega

/-- Witness of C33: the word 0x8C22FFFC (LW r2, -4(r1)), whose immediate has bit 15 set. -/
theorem C33_decode_lossless_witness :
    0x8C22FFFC = (decode_opcode 0x8C22FFFC <<< 26) ||| (decode_r_rs 0x8C22FFFC <<< 21)
          ||| (decode_r_rt 0x8C22FFFC <<< 16) ||| (decode_r_rd 0x8C22FFFC <<< 11)
          ||| (decode_r_shamt 0x8C22FFFC <<< 6) ||| decode_r_funct 0x8C22FFFC ∧
    0x8C22FFFC = (decode_opcode 0x8C22FFFC <<< 26) ||| (decode_i_rs 0x8C22FFFC <<< 21)
          ||| (decode_i_rt 0x8C22FFFC <<< 16)
          ||| (u32 (decode_i_immediate 0x8C22FFFC) &&& 0xFFFF) ∧
    0x8C22FFFC = (decode_opcode 0x8C22FFFC <<< 26) ||| decode_j_target 0x8C22FFFC :=
  C33_decode_lossless 0x8C22FFFC (by decide)

end MIPS
